import Mathlib

/-!
Verification of the uMCP data-link protocol core of `uWAVE_Example_2.ino`
(ucnl/uWAVE_Arduino).

The embedding below is a shallow translation of the C source:
machine bytes become `Nat` with explicit `% 256` where the C code wraps,
C arrays become functions `Nat → Nat` updated pointwise, and the
byte-at-a-time deframer / the protocol state machine become explicit
state-passing functions.  The `while` loops of the source
(`uMCP_IsByteInRangeExclusive`, the loop of `uMCP_AcknowledgeSentItems`)
and the bounded mutual recursion
`uMCP_Protocol_Perform → uMCP_…Send → uMCP_SELECT_Set → uMCP_Protocol_Perform`
are given a fuel argument; the fuel is always chosen large enough that the
zero-fuel fallback is unreachable (the C recursion terminates because each
send arms the TX timer, which disables the nested `uMCP_Protocol_Perform`).
-/

namespace UMCP

/-- Pointwise update of a `Nat → Nat` array model. -/
def upd (f : Nat → Nat) (k v : Nat) : Nat → Nat :=
  fun i => if i = k then v else f i

@[simp] theorem upd_same (f : Nat → Nat) (k v : Nat) : upd f k v k = v := by
  simp [upd]

@[simp] theorem upd_apply (f : Nat → Nat) (k v i : Nat) :
    upd f k v i = if i = k then v else f i := rfl

/-! ### CRC8 engine (`CRC8Table`, `CRC8_Update`, `CRC8_Get`) -/

/-- The 256-entry CRC8 table from the source. -/
def CRC8Table : List Nat :=
  [0x00, 0x31, 0x62, 0x53, 0xC4, 0xF5, 0xA6, 0x97,
   0xB9, 0x88, 0xDB, 0xEA, 0x7D, 0x4C, 0x1F, 0x2E,
   0x43, 0x72, 0x21, 0x10, 0x87, 0xB6, 0xE5, 0xD4,
   0xFA, 0xCB, 0x98, 0xA9, 0x3E, 0x0F, 0x5C, 0x6D,
   0x86, 0xB7, 0xE4, 0xD5, 0x42, 0x73, 0x20, 0x11,
   0x3F, 0x0E, 0x5D, 0x6C, 0xFB, 0xCA, 0x99, 0xA8,
   0xC5, 0xF4, 0xA7, 0x96, 0x01, 0x30, 0x63, 0x52,
   0x7C, 0x4D, 0x1E, 0x2F, 0xB8, 0x89, 0xDA, 0xEB,
   0x3D, 0x0C, 0x5F, 0x6E, 0xF9, 0xC8, 0x9B, 0xAA,
   0x84, 0xB5, 0xE6, 0xD7, 0x40, 0x71, 0x22, 0x13,
   0x7E, 0x4F, 0x1C, 0x2D, 0xBA, 0x8B, 0xD8, 0xE9,
   0xC7, 0xF6, 0xA5, 0x94, 0x03, 0x32, 0x61, 0x50,
   0xBB, 0x8A, 0xD9, 0xE8, 0x7F, 0x4E, 0x1D, 0x2C,
   0x02, 0x33, 0x60, 0x51, 0xC6, 0xF7, 0xA4, 0x95,
   0xF8, 0xC9, 0x9A, 0xAB, 0x3C, 0x0D, 0x5E, 0x6F,
   0x41, 0x70, 0x23, 0x12, 0x85, 0xB4, 0xE7, 0xD6,
   0x7A, 0x4B, 0x18, 0x29, 0xBE, 0x8F, 0xDC, 0xED,
   0xC3, 0xF2, 0xA1, 0x90, 0x07, 0x36, 0x65, 0x54,
   0x39, 0x08, 0x5B, 0x6A, 0xFD, 0xCC, 0x9F, 0xAE,
   0x80, 0xB1, 0xE2, 0xD3, 0x44, 0x75, 0x26, 0x17,
   0xFC, 0xCD, 0x9E, 0xAF, 0x38, 0x09, 0x5A, 0x6B,
   0x45, 0x74, 0x27, 0x16, 0x81, 0xB0, 0xE3, 0xD2,
   0xBF, 0x8E, 0xDD, 0xEC, 0x7B, 0x4A, 0x19, 0x28,
   0x06, 0x37, 0x64, 0x55, 0xC2, 0xF3, 0xA0, 0x91,
   0x47, 0x76, 0x25, 0x14, 0x83, 0xB2, 0xE1, 0xD0,
   0xFE, 0xCF, 0x9C, 0xAD, 0x3A, 0x0B, 0x58, 0x69,
   0x04, 0x35, 0x66, 0x57, 0xC0, 0xF1, 0xA2, 0x93,
   0xBD, 0x8C, 0xDF, 0xEE, 0x79, 0x48, 0x1B, 0x2A,
   0xC1, 0xF0, 0xA3, 0x92, 0x05, 0x34, 0x67, 0x56,
   0x78, 0x49, 0x1A, 0x2B, 0xBC, 0x8D, 0xDE, 0xEF,
   0x82, 0xB3, 0xE0, 0xD1, 0x46, 0x77, 0x24, 0x15,
   0x3B, 0x0A, 0x59, 0x68, 0xFF, 0xCE, 0x9D, 0xAC]

/-- `CRC8_Update(prev, next) = CRC8Table[prev ^ next]`. -/
def CRC8_Update (prev next : Nat) : Nat :=
  CRC8Table.getD (prev ^^^ next) 0

/-- Folding `CRC8_Update` over a byte list (the loop body of `CRC8_Get`). -/
def crcFold (crc : Nat) (l : List Nat) : Nat :=
  l.foldl CRC8_Update crc

/-- `CRC8_Get(buffer, sIdx, cnt)`: CRC8 seeded with `0xFF` over
`cnt` bytes of `buffer` starting at index `sIdx`. -/
def CRC8_Get (buf : List Nat) (sIdx cnt : Nat) : Nat :=
  crcFold 0xff ((buf.drop sIdx).take cnt)

@[simp] theorem crcFold_nil (c : Nat) : crcFold c [] = c := rfl

@[simp] theorem crcFold_cons (c b : Nat) (l : List Nat) :
    crcFold c (b :: l) = crcFold (CRC8_Update c b) l := rfl

theorem crcFold_append (c : Nat) (l₁ l₂ : List Nat) :
    crcFold c (l₁ ++ l₂) = crcFold (crcFold c l₁) l₂ := by
  simp [crcFold]

/-! ### Wire constants -/

def UMCP_SIGN : Nat := 0xAD
def UMCP_MAX_DATA_SIZE : Nat := 32
def UMCP_MAX_SENT_BLOCKS : Nat := 8
def UMCP_PIPELINE_LIMIT : Nat := 4
def CR_RING_SIZE : Nat := 256       -- UMCP_MAX_SENT_BLOCKS * UMCP_MAX_DATA_SIZE
def CFG_DATABLOCK_SIZE : Nat := 32
def CFG_NAGLE_DELAY_MS : Nat := 100

/-- `uMCP_PacketType` numeric values (`ACK=1|32`, `REP=2|32`, `STA=4|32`,
`STR=8|32`, `DTA=1|16`, `DTE=1|16|32`, `INVALID` = next enum ordinal). -/
def PTYPE_ACK : Nat := 33
def PTYPE_REP : Nat := 34
def PTYPE_STA : Nat := 36
def PTYPE_STR : Nat := 40
def PTYPE_DTA : Nat := 17
def PTYPE_DTE : Nat := 49
def PTYPE_INVALID : Nat := 50

end UMCP

namespace UMCP

/-! ### Packet deframer (the `CFG_LINE_DC_ID` branch of `uMCP_OnNewByte`) -/

/-- The incoming-packet (deframer) state: the `ip_*` globals. -/
structure DFState where
  ip_start : Bool
  ip_pos : Nat
  ip_sid : Nat
  ip_tid : Nat
  ip_type : Nat
  ip_tcnt : Nat
  ip_rcnt : Nat
  ip_ahchk : Nat
  ip_dcnt : Nat
  ip_ready : Bool
  ip_datablock : Nat → Nat

/-- One incoming line byte: the `chID == CFG_LINE_DC_ID` branch of
`uMCP_OnNewByte`, translated clause for clause. -/
def uMCP_OnNewByte_line (c : Nat) (s : DFState) : DFState :=
  if s.ip_start then
    if s.ip_pos = 1 then
      -- type byte; `(uMCP_PacketType)c == uMCP_PTYPE_INVALID` means `c = 50`
      if c = PTYPE_INVALID then
        { s with ip_ahchk := CRC8_Update s.ip_ahchk c, ip_type := c, ip_start := false }
      else
        { s with ip_ahchk := CRC8_Update s.ip_ahchk c, ip_type := c, ip_pos := s.ip_pos + 1 }
    else if s.ip_pos ≤ 3 then
      { s with ip_ahchk := CRC8_Update s.ip_ahchk c,
               ip_tid := if s.ip_pos = 3 then c else s.ip_tid,
               ip_sid := if s.ip_pos = 2 then c else s.ip_sid,
               ip_pos := s.ip_pos + 1 }
    else
      if s.ip_type = PTYPE_STR ∨ s.ip_type = PTYPE_STA then
        -- header checksum byte for STR/STA; on mismatch the source leaves
        -- `ip_start`/`ip_pos` untouched (no else branch)
        if s.ip_ahchk = c then { s with ip_start := false, ip_ready := true } else s
      else if s.ip_pos = 4 then
        { s with ip_tcnt := c, ip_pos := s.ip_pos + 1, ip_ahchk := CRC8_Update s.ip_ahchk c }
      else if s.ip_type = PTYPE_REP then
        if s.ip_ahchk = c then { s with ip_ready := true, ip_start := false }
        else { s with ip_start := false }
      else if s.ip_pos = 5 then
        { s with ip_rcnt := c, ip_pos := s.ip_pos + 1, ip_ahchk := CRC8_Update s.ip_ahchk c }
      else if s.ip_pos = 6 then
        -- header checksum byte
        if s.ip_ahchk = c then
          if s.ip_type = PTYPE_ACK then { s with ip_ready := true, ip_start := false }
          else { s with ip_pos := s.ip_pos + 1 }
        else { s with ip_start := false }
      else if s.ip_pos = 7 then
        -- dcnt byte
        if 1 ≤ c then
          { s with ip_dcnt := c, ip_ahchk := CRC8_Update 0xff c, ip_pos := s.ip_pos + 1 }
        else
          { s with ip_dcnt := c, ip_start := false, ip_ready := true, ip_type := PTYPE_ACK }
      else if s.ip_pos = 8 + s.ip_dcnt then
        -- data block checksum byte
        if s.ip_ahchk = c then { s with ip_ready := true, ip_start := false }
        else { s with ip_type := PTYPE_ACK, ip_start := false }
      else
        { s with ip_datablock := upd s.ip_datablock (s.ip_pos - 8) c,
                 ip_ahchk := CRC8_Update s.ip_ahchk c,
                 ip_pos := s.ip_pos + 1 }
  else if c = UMCP_SIGN then
    { s with ip_start := true, ip_pos := 1, ip_ahchk := CRC8_Update 0xff UMCP_SIGN,
             ip_type := PTYPE_INVALID, ip_dcnt := 0 }
  else s

/-- The fields of a deframed packet, as read by `uMCP_OnIncomingPacket`
(`sid/tid/tcnt/rcnt/dcnt/pType` plus the first `dcnt` data-block bytes). -/
structure DPacket where
  ptype : Nat
  sid : Nat
  tid : Nat
  tcnt : Nat
  rcnt : Nat
  dcnt : Nat
  payload : List Nat
deriving DecidableEq, Repr

/-- Snapshot of the packet a ready deframer state delivers. -/
def df_extract (s : DFState) : DPacket :=
  { ptype := s.ip_type, sid := s.ip_sid, tid := s.ip_tid,
    tcnt := s.ip_tcnt, rcnt := s.ip_rcnt, dcnt := s.ip_dcnt,
    payload := (List.range s.ip_dcnt).map s.ip_datablock }

/-- Feed a byte list one byte at a time, collecting each packet at the moment
`ip_ready` becomes set (the main loop consumes `ip_ready`, clearing it,
before the next byte is read). -/
def df_run (s : DFState) : List Nat → DFState × List DPacket
  | [] => (s, [])
  | c :: rest =>
    let s1 := uMCP_OnNewByte_line c s
    if s1.ip_ready then
      let r := df_run { s1 with ip_ready := false } rest
      (r.1, df_extract s1 :: r.2)
    else
      df_run s1 rest

/-- Deframer state at power-up (`ip_start=false`, `ip_pos=0`, zeroed fields,
`ip_type = uMCP_PTYPE_INVALID`). -/
def df0 : DFState :=
  { ip_start := false, ip_pos := 0, ip_sid := 0, ip_tid := 0,
    ip_type := PTYPE_INVALID, ip_tcnt := 0, ip_rcnt := 0, ip_ahchk := 0,
    ip_dcnt := 0, ip_ready := false, ip_datablock := fun _ => 0 }

/-! ### Packet framer (`uMCP_CtrlSend` / `uMCP_DataSend` byte output) -/

/-- The bytes `uMCP_CtrlSend` writes into `ol_buffer`: signature, type,
sender, target, `tcnt` for REP/ACK, `rcnt` for ACK, then the CRC8 of all
preceding bytes. -/
def uMCP_CtrlSend_bytes (ptype sid tid tcnt rcnt : Nat) : List Nat :=
  let hdr : List Nat := [UMCP_SIGN, ptype, sid, tid]
  let hdr2 : List Nat :=
    if ptype = PTYPE_REP ∨ ptype = PTYPE_ACK then
      if ptype = PTYPE_ACK then hdr ++ [tcnt, rcnt] else hdr ++ [tcnt]
    else hdr
  hdr2 ++ [CRC8_Get hdr2 0 hdr2.length]

/-- The bytes `uMCP_DataSend` writes into `ol_buffer`: the 6-byte header,
its CRC8, the `(byte)cnt` count byte, `cnt` bytes copied from the ring
buffer starting at `rPos` (wrapping at `CR_RING_SIZE`), and the CRC8 over
count byte + data bytes. -/
def uMCP_DataSend_bytes (isDTE : Bool) (sid tid tcnt rcnt rPos cnt : Nat)
    (ring : Nat → Nat) : List Nat :=
  let ptype : Nat := if isDTE then PTYPE_DTE else PTYPE_DTA
  let hdr : List Nat := [UMCP_SIGN, ptype, sid, tid, tcnt, rcnt]
  let hdr2 : List Nat := hdr ++ [CRC8_Get hdr 0 6]
  let data : List Nat := (List.range cnt).map (fun i => ring ((rPos + i) % CR_RING_SIZE))
  let body : List Nat := (cnt % 256) :: data
  hdr2 ++ body ++ [CRC8_Get (hdr2 ++ body) 7 (cnt + 1)]

end UMCP

namespace UMCP

/-! ### `uMCP_IsByteInRangeExclusive` -/

/-- The `while` loop of `uMCP_IsByteInRangeExclusive`: starting from `idx`,
repeatedly increment (wrapping at 256) and compare against `val`, stopping
when `idx` reaches `ndm` (`= nd - 1` wrapped).  The fuel `256` always
suffices because `idx` reaches `ndm` in at most 255 steps. -/
def inRangeLoop (ndm val : Nat) : Nat → Nat → Bool
  | _, 0 => false
  | idx, fuel + 1 =>
    if idx = ndm then false
    else
      let idx2 := (idx + 1) % 256
      if idx2 = val then true else inRangeLoop ndm val idx2 fuel

/-- `uMCP_IsByteInRangeExclusive(st, nd, val)`. -/
def uMCP_IsByteInRangeExclusive (st nd val : Nat) : Bool :=
  inRangeLoop ((nd + 255) % 256) val st 256

/-! ### Protocol state (`uMCP_State`, timers, counters, buffers) -/

/-- `uMCP_State`. -/
inductive UState where
  | HALTED
  | ISTART
  | ASTART
  | RUNNING
deriving DecidableEq, Repr

/-- `uMCP_Timer_ID`. -/
inductive TimerID where
  | TMO
  | SELECT
  | TX
deriving DecidableEq, Repr

/-- Update of a timer-indexed table. -/
def tupd {α : Type} (f : TimerID → α) (k : TimerID) (v : α) : TimerID → α :=
  fun i => if i = k then v else f i

/-- The protocol globals of the source in one record.  `olFrame` models
`ol_buffer`/`ol_cnt` as the (single, overwritable) outgoing frame;
`ol_ready`/`oh_ready` are the transmission flags; `now` models `millis()`. -/
structure PState where
  state : UState
  select : Bool
  selectDefaultState : Bool
  R : Nat
  N : Nat
  A : Nat
  sentBlocksSize : Nat → Nat
  sentBlocksRPos : Nat → Nat
  sentBlocksCnt : Nat
  srep : Bool
  sack : Bool
  iTimer_State : TimerID → Bool
  iTimer_Interval : TimerID → Nat
  iTimer_ExpTime : TimerID → Nat
  isTimerPendingOnTxFinish : Bool
  ih_ring : Nat → Nat
  ih_rPos : Nat
  ih_wPos : Nat
  ih_Cnt : Nat
  ih_TS : Nat
  oh_buffer : Nat → Nat
  oh_cnt : Nat
  oh_ready : Bool
  olFrame : Option (List Nat)
  ol_ready : Bool
  txOverflow : Bool
  now : Nat

/-- `SID = CFG_DEFAULT_SID`, set once and never reassigned. -/
def SIDc : Nat := 0

/-- `TID = CFG_DEFAULT_TID`, set once and never reassigned. -/
def TIDc : Nat := 0

/-- `uMCP_ITimer_StateSet`. -/
def uMCP_ITimer_StateSet (id : TimerID) (v : Bool) (s : PState) : PState :=
  if v then
    { s with iTimer_ExpTime := tupd s.iTimer_ExpTime id (s.now + s.iTimer_Interval id),
             iTimer_State := tupd s.iTimer_State id true }
  else
    { s with iTimer_State := tupd s.iTimer_State id false }

/-- `uMCP_ITimer_Init`. -/
def uMCP_ITimer_Init (id : TimerID) (interval : Nat) (v : Bool) (s : PState) : PState :=
  uMCP_ITimer_StateSet id v { s with iTimer_Interval := tupd s.iTimer_Interval id interval }

/-- `uMCP_STATE_Set`: entering HALTED or ISTART resets `R/N/A` and the
sent-block window counter. -/
def uMCP_STATE_Set (v : UState) (s : PState) : PState :=
  if v = UState.ISTART ∨ v = UState.HALTED then
    { s with R := 0, N := 0, A := 0, sentBlocksCnt := 0, state := v }
  else
    { s with state := v }

/-- TX-timer interval: `UMCP_FIXED_TX_DELAY_MS + 1000 * (frame_bits / baud)`
(the float-to-int cast truncates; frames are at most 41 bytes, so the
quotient is 0 at 9600 baud, as in the integer division here). -/
def txInterval (frameLen : Nat) : Nat :=
  10 + 1000 * ((frameLen * 8) / 9600)

/-- `uMCP_SELECT_Set`, parameterized by the recursive
`uMCP_Protocol_Perform` continuation (the C functions are mutually
recursive; the recursion is tied below with a fuel that the TX-timer guard
makes unreachable). -/
def uMCP_SELECT_Set_g (perf : PState → PState) (value : Bool) (s : PState) : PState :=
  let s1 :=
    if s.selectDefaultState then
      uMCP_ITimer_StateSet TimerID.SELECT (value != s.selectDefaultState) s
    else s
  let s2 := { s1 with select := value }
  if value then perf s2 else s2

/-- `uMCP_CtrlSend`.  Writing `ol_buffer` is modelled by `olFrame`. -/
def uMCP_CtrlSend_g (perf : PState → PState) (ptype tcnt rcnt : Nat)
    (isStartTimer : Bool) (s : PState) : PState :=
  let frame := uMCP_CtrlSend_bytes ptype SIDc TIDc tcnt rcnt
  let s1 := { s with olFrame := some frame, ol_ready := true,
                     isTimerPendingOnTxFinish := isStartTimer }
  let s2 := uMCP_ITimer_Init TimerID.TX (txInterval frame.length) true s1
  uMCP_SELECT_Set_g perf false s2

/-- `uMCP_DataSend`. -/
def uMCP_DataSend_g (perf : PState → PState) (isDTE : Bool)
    (tcnt rcnt rPos cnt : Nat) (isStartTimer : Bool) (s : PState) : PState :=
  let frame := uMCP_DataSend_bytes isDTE SIDc TIDc tcnt rcnt rPos cnt s.ih_ring
  let s1 := { s with olFrame := some frame, ol_ready := true,
                     isTimerPendingOnTxFinish := isStartTimer }
  let s2 := uMCP_ITimer_Init TimerID.TX (txInterval frame.length) true s1
  uMCP_SELECT_Set_g perf (!isDTE) s2

/-- `uMCP_NextDataBlockSend`: note the slot written is indexed by the raw
byte counter `N`, and the slots/`ih_*` updates use the globals as read
after `uMCP_DataSend` returns. -/
def uMCP_NextDataBlockSend_g (perf : PState → PState) (s : PState) : PState :=
  let isDTE0 := decide (s.sentBlocksCnt ≥ UMCP_PIPELINE_LIMIT)
  let pcnt := if s.ih_Cnt < CFG_DATABLOCK_SIZE then s.ih_Cnt else CFG_DATABLOCK_SIZE
  let isDTE := if s.ih_Cnt < CFG_DATABLOCK_SIZE then true else isDTE0
  let s1 := uMCP_DataSend_g perf isDTE s.N s.R s.ih_rPos pcnt isDTE s
  { s1 with sentBlocksRPos := upd s1.sentBlocksRPos s1.N (s1.ih_rPos % 256),
            sentBlocksSize := upd s1.sentBlocksSize s1.N (pcnt % 256),
            sentBlocksCnt := (s1.sentBlocksCnt + 1) % 256,
            ih_rPos := (s1.ih_rPos + pcnt) % CR_RING_SIZE,
            ih_Cnt := s1.ih_Cnt - pcnt }

/-- `uMCP_DataBlockResend`. -/
def uMCP_DataBlockResend_g (perf : PState → PState) (blockId : Nat)
    (isDTE isStartTimer : Bool) (s : PState) : PState :=
  if s.sentBlocksSize blockId ≠ 0 then
    uMCP_DataSend_g perf isDTE blockId s.R (s.sentBlocksRPos blockId)
      (s.sentBlocksSize blockId) isStartTimer s
  else s

/-- `uMCP_Protocol_Perform`, recursion on fuel.  The zero-fuel fallback is
unreachable for the fuel used below: every send arms the TX timer before
calling `uMCP_SELECT_Set`, so the nested `uMCP_Protocol_Perform` always
takes its `else` branch. -/
def uMCP_Protocol_Perform : Nat → PState → PState
  | 0, s => s
  | f + 1, s =>
    if s.state = UState.RUNNING then
      if !(s.iTimer_State TimerID.TX) && !(s.iTimer_State TimerID.TMO) && s.select then
        if s.ih_Cnt = 0 then
          if s.srep then
            let s1 := uMCP_CtrlSend_g (uMCP_Protocol_Perform f) PTYPE_REP s.N 0 true s
            { s1 with srep := false }
          else if s.sentBlocksCnt > 0 then
            uMCP_DataBlockResend_g (uMCP_Protocol_Perform f) ((s.A + 1) % 256) true true s
          else if (!s.selectDefaultState) || s.sack then
            let s1 := uMCP_CtrlSend_g (uMCP_Protocol_Perform f) PTYPE_ACK s.N s.R false s
            { s1 with sack := false }
          else s
        else
          if s.ih_Cnt ≥ CFG_DATABLOCK_SIZE ∨ s.ih_TS + CFG_NAGLE_DELAY_MS < s.now then
            uMCP_NextDataBlockSend_g (uMCP_Protocol_Perform f) { s with N := (s.N + 1) % 256 }
          else s
      else s
    else s

/-- `uMCP_Protocol_Perform` as called from the outside. -/
def protoPerform (s : PState) : PState := uMCP_Protocol_Perform 16 s

/-- `uMCP_SELECT_Set` with the recursion tied. -/
def uMCP_SELECT_Set (value : Bool) (s : PState) : PState :=
  uMCP_SELECT_Set_g protoPerform value s

/-- `uMCP_CtrlSend` with the recursion tied. -/
def uMCP_CtrlSend (ptype tcnt rcnt : Nat) (isStartTimer : Bool) (s : PState) : PState :=
  uMCP_CtrlSend_g protoPerform ptype tcnt rcnt isStartTimer s

/-- `uMCP_DataSend` with the recursion tied. -/
def uMCP_DataSend (isDTE : Bool) (tcnt rcnt rPos cnt : Nat) (isStartTimer : Bool)
    (s : PState) : PState :=
  uMCP_DataSend_g protoPerform isDTE tcnt rcnt rPos cnt isStartTimer s

/-- `uMCP_NextDataBlockSend` with the recursion tied. -/
def uMCP_NextDataBlockSend (s : PState) : PState :=
  uMCP_NextDataBlockSend_g protoPerform s

/-- `uMCP_DataBlockResend` with the recursion tied. -/
def uMCP_DataBlockResend (blockId : Nat) (isDTE isStartTimer : Bool) (s : PState) : PState :=
  uMCP_DataBlockResend_g protoPerform blockId isDTE isStartTimer s

/-- The `for (a = from; a != to; a++, A++)` loop of
`uMCP_AcknowledgeSentItems`; `a` and `A` are bytes and wrap. -/
def ackLoop (toV : Nat) : Nat → Nat → PState → PState
  | _, 0, s => s
  | a, fuel + 1, s =>
    if a = toV then s
    else
      ackLoop toV ((a + 1) % 256) fuel
        { s with sentBlocksSize := upd s.sentBlocksSize s.A 0,
                 sentBlocksCnt := (s.sentBlocksCnt + 255) % 256,
                 A := (s.A + 1) % 256 }

/-- `uMCP_AcknowledgeSentItems(to)`. -/
def uMCP_AcknowledgeSentItems (toV : Nat) (s : PState) : PState :=
  ackLoop toV s.A 256 s

/-- The packet fields handed to `uMCP_OnIncomingPacket`
(`sid/tid/tcnt/rcnt/dcnt/pType` and `ip_datablock`). -/
structure InPacket where
  ptype : Nat
  sid : Nat
  tid : Nat
  tcnt : Nat
  rcnt : Nat
  dcnt : Nat
  datablock : Nat → Nat

/-- Overwrite the first `n` host-output bytes (`ff_copy_u8` into `oh_buffer`). -/
def copyBlock (src dst : Nat → Nat) (n : Nat) : Nat → Nat :=
  fun i => if i < n then src i else dst i

/-- `uMCP_OnIncomingPacket`, switch translated case for case.  The global
reads after `uMCP_SELECT_Set(true)` use the state that call returned. -/
def uMCP_OnIncomingPacket (pk : InPacket) (s : PState) : PState :=
  if pk.ptype = PTYPE_STR then
    let s1 := uMCP_SELECT_Set true s
    if s1.state = UState.HALTED ∨ s1.state = UState.ISTART then
      let s2 := uMCP_STATE_Set UState.ASTART s1
      let s3 := uMCP_ITimer_StateSet TimerID.TMO false s2
      uMCP_CtrlSend PTYPE_STA 0 0 true s3
    else if s1.state = UState.ASTART then
      let s2 := uMCP_STATE_Set UState.RUNNING s1
      let s3 := uMCP_ITimer_StateSet TimerID.TMO false s2
      uMCP_CtrlSend PTYPE_ACK 0 0 false s3
    else
      uMCP_STATE_Set UState.HALTED s1
  else if pk.ptype = PTYPE_STA then
    let s1 := uMCP_SELECT_Set true s
    if s1.state = UState.ISTART ∨ s1.state = UState.ASTART ∨ s1.state = UState.RUNNING then
      let s2 := uMCP_STATE_Set UState.RUNNING s1
      let s3 := uMCP_ITimer_StateSet TimerID.TMO false s2
      uMCP_CtrlSend PTYPE_ACK 0 0 false s3
    else s1
  else if pk.ptype = PTYPE_REP then
    if s.state = UState.RUNNING then
      uMCP_SELECT_Set true { s with sack := true, srep := false }
    else s
  else if pk.ptype = PTYPE_ACK then
    let s1 :=
      if s.state = UState.ASTART then
        if pk.rcnt = 0 then
          uMCP_STATE_Set UState.RUNNING (uMCP_ITimer_StateSet TimerID.TMO false s)
        else s
      else if s.state = UState.RUNNING then
        let s2 := uMCP_ITimer_StateSet TimerID.TMO false s
        if pk.rcnt = s2.N ∨ uMCP_IsByteInRangeExclusive s2.A s2.N pk.rcnt then
          uMCP_AcknowledgeSentItems pk.rcnt s2
        else s2
      else s
    uMCP_SELECT_Set true s1
  else if pk.ptype = PTYPE_DTA ∨ pk.ptype = PTYPE_DTE then
    if s.state = UState.RUNNING then
      let s1 :=
        if pk.tcnt ≤ s.R + 1 then
          let s0 :=
            if pk.tcnt = s.R + 1 then
              { s with R := (s.R + 1) % 256,
                       oh_buffer := copyBlock pk.datablock s.oh_buffer pk.dcnt,
                       oh_cnt := pk.dcnt, oh_ready := true }
            else s
          { s0 with sack := true }
        else s
      let s2 := { s1 with iTimer_State := tupd s1.iTimer_State TimerID.TMO false }
      let s3 :=
        if pk.rcnt = s2.N ∨ uMCP_IsByteInRangeExclusive s2.A s2.N pk.rcnt then
          uMCP_AcknowledgeSentItems pk.rcnt s2
        else s2
      let s4 :=
        if pk.ptype = PTYPE_DTA then uMCP_ITimer_StateSet TimerID.TMO true s3 else s3
      uMCP_SELECT_Set (decide (pk.ptype = PTYPE_DTE)) s4
    else s
  else s

/-- The `chID == CFG_HOST_DC_ID` branch of `uMCP_OnNewByte`: accept the byte
into the ring while `ih_Cnt <= CR_RING_SIZE`, else report `TX OVERFLOW`
(modelled by the ghost flag `txOverflow`). -/
def uMCP_OnNewByte_host (c : Nat) (s : PState) : PState :=
  if s.ih_Cnt ≤ CR_RING_SIZE then
    { s with ih_ring := upd s.ih_ring s.ih_wPos c,
             ih_wPos := (s.ih_wPos + 1) % CR_RING_SIZE,
             ih_Cnt := s.ih_Cnt + 1,
             ih_TS := s.now }
  else
    { s with txOverflow := true }

/-- The autostart fragment at the end of `loop()`: HALTED with a non-empty
ring buffer moves to ISTART and sends STR, otherwise the protocol layer
runs `uMCP_Protocol_Perform`. -/
def uMCP_loop_autostart (s : PState) : PState :=
  if s.state = UState.HALTED ∧ s.ih_Cnt > 0 then
    uMCP_CtrlSend PTYPE_STR 0 0 true (uMCP_STATE_Set UState.ISTART s)
  else
    protoPerform s

/-- The global state at power-up (`setup()` plus the initializers). -/
def pInit : PState :=
  { state := UState.HALTED, select := true, selectDefaultState := true,
    R := 0, N := 0, A := 0,
    sentBlocksSize := fun _ => 0, sentBlocksRPos := fun _ => 0, sentBlocksCnt := 0,
    srep := false, sack := false,
    iTimer_State := fun _ => false,
    iTimer_Interval := fun t => match t with
      | TimerID.TMO => 1000 | TimerID.SELECT => 4000 | TimerID.TX => 0,
    iTimer_ExpTime := fun _ => 0,
    isTimerPendingOnTxFinish := false,
    ih_ring := fun _ => 0, ih_rPos := 0, ih_wPos := 0, ih_Cnt := 0, ih_TS := 0,
    oh_buffer := fun _ => 0, oh_cnt := 0, oh_ready := false,
    olFrame := none, ol_ready := false, txOverflow := false, now := 0 }

end UMCP

namespace UMCP

/-! ### Derived operations used by the window/ring claims -/

/-- The new-block send operation as performed by `uMCP_Protocol_Perform`:
`N++` (byte) followed by `uMCP_NextDataBlockSend`. -/
def opSend (s : PState) : PState :=
  uMCP_NextDataBlockSend { s with N := (s.N + 1) % 256 }

/-- The acknowledge operation (`uMCP_AcknowledgeSentItems` as invoked with
an accepted received counter). -/
def opAck (toV : Nat) (s : PState) : PState :=
  uMCP_AcknowledgeSentItems toV s

/-- Feed a byte list into the host side of `uMCP_OnNewByte`. -/
def feedHost (l : List Nat) (s : PState) : PState :=
  l.foldl (fun s c => uMCP_OnNewByte_host c s) s

/-- Number of sent-block window slots with nonzero recorded size (the window
arrays have `UMCP_MAX_SENT_BLOCKS = 8` slots in the source; the index space
scanned here is the full byte range the code can address). -/
def occupiedCount (s : PState) : Nat :=
  ((Finset.range 256).filter (fun i => s.sentBlocksSize i ≠ 0)).card

end UMCP

namespace UMCP

set_option maxRecDepth 8000

/-- The spec's exclusive circular range `(a, n)` mod 256: the values
`(a + k) % 256` for `1 ≤ k < (n - a) mod 256`.  This range is empty when
`a = n`, matching the spec's reading; it is compared against the source's
`uMCP_IsByteInRangeExclusive`. -/
def inRangeExclusiveSpec (a n v : Nat) : Bool :=
  (List.range ((n + 256 - a) % 256)).any
    (fun k => decide (1 ≤ k) && decide (v = (a + k) % 256))

/-! ### C1 -/

/-- Claim C1 (code bug): a DTA frame whose header parses but whose final
data-checksum byte is wrong is NOT delivered: the deframer sets the stored
type to ACK but never raises `ip_ready`, so no packet reaches
`uMCP_OnIncomingPacket`.  The same frame with the correct data checksum
(174 instead of 175) is delivered as DTA, showing only the final CRC byte
differs. -/
theorem C1_data_crc_mismatch_not_delivered :
    (df_run df0 [0xAD, 0x11, 0, 0, 1, 0, 6, 2, 10, 20, 175]).2 = [] ∧
    (df_run df0 [0xAD, 0x11, 0, 0, 1, 0, 6, 2, 10, 20, 175]).1.ip_type = PTYPE_ACK ∧
    (df_run df0 [0xAD, 0x11, 0, 0, 1, 0, 6, 2, 10, 20, 174]).2 =
      [{ ptype := PTYPE_DTA, sid := 0, tid := 0, tcnt := 1, rcnt := 0, dcnt := 2,
         payload := [10, 20] }] := by
  refine ⟨by decide, by decide, by decide⟩

/-! ### C2 counterexample -/

/-- Claim C2 counterexample: the frame `uMCP_DataSend` builds for a
data-count of 0 does not round-trip: the deframer delivers it with type
forced to ACK (33), not the original DTA (17). -/
theorem C2_zero_count_frame_delivered_as_ACK :
    (df_run df0 (uMCP_DataSend_bytes false 0 0 3 4 0 0 (fun _ => 0))).2 =
      [{ ptype := PTYPE_ACK, sid := 0, tid := 0, tcnt := 3, rcnt := 4, dcnt := 0,
         payload := [] }] ∧
    PTYPE_ACK ≠ PTYPE_DTA := by
  refine ⟨by decide, by decide⟩

/-! ### C5 counterexample -/

/-- Claim C5 counterexample: for `A = N = 0` and `v = 5`, the code's
acceptance test succeeds although the spec's exclusive circular range
`(A, N)` is empty when `A = N` (so the claim's characterisation says the
test must fail). -/
theorem C5_equal_endpoints_range_not_empty :
    ((5 : Nat) = 0 ∨ uMCP_IsByteInRangeExclusive 0 0 5 = true) ∧
    ¬((5 : Nat) = 0 ∨ inRangeExclusiveSpec 0 0 5 = true) := by
  refine ⟨by decide, by decide⟩

/-! ### C6 counterexample -/

/-- Claim C6 counterexample: from reset, feed one host byte, send one block,
then acknowledge it with the accepted counter `1` (`= N`).  One window slot
(slot 1) still has nonzero size while `sentBlocksCnt` is 0, and the claimed
occupied range `[A, N) = [1, 1)` is empty — the send records at slot `N`
after the increment while the acknowledge clears from the old `A`. -/
theorem C6_window_count_mismatch_after_ack :
    (opSend (feedHost [65] pInit)).N = 1 ∧
    (let s2 := opAck 1 (opSend (feedHost [65] pInit))
     occupiedCount s2 = 1 ∧ s2.sentBlocksCnt = 0 ∧ s2.A = 1 ∧ s2.N = 1 ∧
       s2.sentBlocksSize 1 = 1) := by
  refine ⟨by decide, by decide, by decide, by decide, by decide, by decide⟩

/-! ### C7 -/

/-- Claim C7 (code bug): the window arrays are indexed by the raw mod-256
sequence counter, not by the counter reduced mod `UMCP_MAX_SENT_BLOCKS`.
After eight sends from reset the send for sequence number 8 records its
size at raw index 8 — one past the last valid index of the 8-element C
arrays — while index `8 % UMCP_MAX_SENT_BLOCKS = 0` is untouched. -/
theorem C7_window_indexed_without_mod :
    (let s8 := opSend (opSend (opSend (opSend (opSend (opSend (opSend (opSend
       (feedHost (List.replicate 256 65) pInit))))))))
     s8.N = 8 ∧ s8.sentBlocksSize 8 = 32 ∧
       s8.sentBlocksSize (8 % UMCP_MAX_SENT_BLOCKS) = 0) ∧
    ¬(8 < UMCP_MAX_SENT_BLOCKS) := by
  refine ⟨by decide, by decide⟩

/-! ### C8 -/

/-- Claim C8 (code bug): after an STR frame whose header-checksum byte is
corrupted (245 instead of 244), the deframer does not discard and
resynchronize: (i) a subsequent fully valid STR frame (for sender-id 5) is
swallowed without any ready packet, although on its own that frame parses;
(ii) a later stray byte equal to the stale accumulated CRC (244) makes the
corrupted frame ready after all. -/
theorem C8_header_crc_mismatch_no_resync :
    (df_run df0 ([0xAD, 40, 0, 0, 245] ++ [0xAD, 40, 5, 0, 131])).2 = [] ∧
    (df_run df0 [0xAD, 40, 5, 0, 131]).2 =
      [{ ptype := PTYPE_STR, sid := 5, tid := 0, tcnt := 0, rcnt := 0, dcnt := 0,
         payload := [] }] ∧
    (df_run df0 ([0xAD, 40, 0, 0, 245] ++ [0, 0, 244])).2 =
      [{ ptype := PTYPE_STR, sid := 0, tid := 0, tcnt := 0, rcnt := 0, dcnt := 0,
         payload := [] }] := by
  refine ⟨by decide, by decide, by decide⟩

/-! ### C9 counterexample -/

/-- Claim C9 counterexample: feeding 257 bytes from the host channel into a
reset node drives `ih_Cnt` to 257, exceeding `CR_RING_SIZE = 256` — the
acceptance guard is `ih_Cnt <= CR_RING_SIZE`, so the byte arriving with the
buffer exactly full is still written. -/
theorem C9_count_exceeds_capacity :
    (feedHost (List.replicate 257 65) pInit).ih_Cnt = 257 ∧
    ¬((feedHost (List.replicate 257 65) pInit).ih_Cnt ≤ CR_RING_SIZE) := by
  refine ⟨by decide, by decide⟩

/-! ### C10 -/

/-- Claim C10 (code bug): a DTA frame whose count byte announces 33 data
bytes makes the deframer store a byte at offset 32 of `ip_datablock`, past
the last valid offset of the 32-byte buffer (`UMCP_MAX_DATA_SIZE = 32`). -/
theorem C10_datablock_write_past_capacity :
    ((df_run df0 ([0xAD, 0x11, 0, 0, 0, 0, 242, 33] ++ List.replicate 33 7)).1.ip_datablock 32 = 7) ∧
    df0.ip_datablock 32 = 0 ∧
    ¬(32 < UMCP_MAX_DATA_SIZE) := by
  refine ⟨by decide, by decide, by decide⟩

end UMCP

namespace UMCP

@[simp] theorem tupd_same {α : Type} (f : TimerID → α) (k : TimerID) (v : α) :
    tupd f k v k = v := by simp [tupd]

@[simp] theorem tupd_apply {α : Type} (f : TimerID → α) (k : TimerID) (v : α) (i : TimerID) :
    tupd f k v i = if i = k then v else f i := rfl

/-! ### Field-preservation lemmas for the send/perform call chain

`uMCP_Protocol_Perform` never changes `state`, `selectDefaultState`, `R` or
the host clock, whichever branch fires; these lemmas let the incoming-packet
proofs step over the nested re-entrant `uMCP_Protocol_Perform` calls. -/

theorem itss_state (id : TimerID) (v : Bool) (s : PState) :
    (uMCP_ITimer_StateSet id v s).state = s.state := by
  simp [uMCP_ITimer_StateSet, apply_ite]

theorem iti_state (id : TimerID) (n : Nat) (v : Bool) (s : PState) :
    (uMCP_ITimer_Init id n v s).state = s.state := by
  simp [uMCP_ITimer_Init, itss_state]

theorem selg_state {perf : PState → PState}
    (hperf : ∀ t, (perf t).state = t.state) (v : Bool) (s : PState) :
    (uMCP_SELECT_Set_g perf v s).state = s.state := by
  cases v <;> simp [uMCP_SELECT_Set_g, uMCP_ITimer_StateSet, apply_ite, hperf]

theorem ctrlg_state (perf : PState → PState) (p t r : Nat) (b : Bool) (s : PState) :
    (uMCP_CtrlSend_g perf p t r b s).state = s.state := by
  simp [uMCP_CtrlSend_g, uMCP_SELECT_Set_g, uMCP_ITimer_Init, uMCP_ITimer_StateSet,
    apply_ite]

theorem datag_state {perf : PState → PState}
    (hperf : ∀ t, (perf t).state = t.state) (d : Bool) (t r rp c : Nat) (b : Bool)
    (s : PState) :
    (uMCP_DataSend_g perf d t r rp c b s).state = s.state := by
  simp [uMCP_DataSend_g, selg_state hperf, uMCP_ITimer_Init, itss_state]

theorem ndbsg_state {perf : PState → PState}
    (hperf : ∀ t, (perf t).state = t.state) (s : PState) :
    (uMCP_NextDataBlockSend_g perf s).state = s.state := by
  simp [uMCP_NextDataBlockSend_g, datag_state hperf]

theorem dbrg_state {perf : PState → PState}
    (hperf : ∀ t, (perf t).state = t.state) (bid : Nat) (d b : Bool) (s : PState) :
    (uMCP_DataBlockResend_g perf bid d b s).state = s.state := by
  unfold uMCP_DataBlockResend_g
  split <;> simp [datag_state hperf]

theorem perform_state : ∀ (f : Nat) (s : PState),
    (uMCP_Protocol_Perform f s).state = s.state := by
  intro f
  induction f with
  | zero => intro s; rfl
  | succ f ih =>
    intro s
    unfold uMCP_Protocol_Perform
    split
    · split
      · split
        · split
          · simp [ctrlg_state]
          · split
            · simp [dbrg_state ih]
            · split
              · simp [ctrlg_state]
              · rfl
        · split
          · simp [ndbsg_state ih]
          · rfl
      · rfl
    · rfl

theorem protoPerform_state (s : PState) : (protoPerform s).state = s.state :=
  perform_state 16 s

theorem selectSet_state (v : Bool) (s : PState) :
    (uMCP_SELECT_Set v s).state = s.state :=
  selg_state protoPerform_state v s

theorem ctrlSend_state (p t r : Nat) (b : Bool) (s : PState) :
    (uMCP_CtrlSend p t r b s).state = s.state :=
  ctrlg_state protoPerform p t r b s

/-- `uMCP_CtrlSend` leaves the frame it builds in the line output buffer. -/
theorem ctrlg_olFrame (perf : PState → PState) (p t r : Nat) (b : Bool) (s : PState) :
    (uMCP_CtrlSend_g perf p t r b s).olFrame =
      some (uMCP_CtrlSend_bytes p SIDc TIDc t r) := by
  simp [uMCP_CtrlSend_g, uMCP_SELECT_Set_g, uMCP_ITimer_Init, uMCP_ITimer_StateSet,
    apply_ite]

theorem ctrlSend_olFrame (p t r : Nat) (b : Bool) (s : PState) :
    (uMCP_CtrlSend p t r b s).olFrame = some (uMCP_CtrlSend_bytes p SIDc TIDc t r) :=
  ctrlg_olFrame protoPerform p t r b s

/-- `uMCP_DataSend` with the DTE flag releases SELECT without re-entering
`uMCP_Protocol_Perform`, leaving its frame in the line output buffer. -/
theorem datag_olFrame_DTE (perf : PState → PState) (t r rp c : Nat) (b : Bool)
    (s : PState) :
    (uMCP_DataSend_g perf true t r rp c b s).olFrame =
      some (uMCP_DataSend_bytes true SIDc TIDc t r rp c s.ih_ring) := by
  simp [uMCP_DataSend_g, uMCP_SELECT_Set_g, uMCP_ITimer_Init, uMCP_ITimer_StateSet,
    apply_ite]

theorem datag_select_DTE (perf : PState → PState) (t r rp c : Nat) (b : Bool)
    (s : PState) :
    (uMCP_DataSend_g perf true t r rp c b s).select = false := by
  simp [uMCP_DataSend_g, uMCP_SELECT_Set_g, uMCP_ITimer_Init, uMCP_ITimer_StateSet,
    apply_ite]

end UMCP

namespace UMCP

/-- Claim C3: the handshake transition function. -/
theorem C3_handshake_transitions (pk : InPacket) (s : PState) :
    (pk.ptype = PTYPE_STR → s.state = UState.HALTED ∨ s.state = UState.ISTART →
      (uMCP_OnIncomingPacket pk s).state = UState.ASTART ∧
      (uMCP_OnIncomingPacket pk s).olFrame =
        some (uMCP_CtrlSend_bytes PTYPE_STA SIDc TIDc 0 0)) ∧
    (pk.ptype = PTYPE_STR → s.state = UState.ASTART →
      (uMCP_OnIncomingPacket pk s).state = UState.RUNNING ∧
      (uMCP_OnIncomingPacket pk s).olFrame =
        some (uMCP_CtrlSend_bytes PTYPE_ACK SIDc TIDc 0 0)) ∧
    (pk.ptype = PTYPE_STA →
      s.state = UState.ISTART ∨ s.state = UState.ASTART ∨ s.state = UState.RUNNING →
      (uMCP_OnIncomingPacket pk s).state = UState.RUNNING ∧
      (uMCP_OnIncomingPacket pk s).olFrame =
        some (uMCP_CtrlSend_bytes PTYPE_ACK SIDc TIDc 0 0)) ∧
    (pk.ptype = PTYPE_ACK → pk.rcnt = 0 → s.state = UState.ASTART →
      (uMCP_OnIncomingPacket pk s).state = UState.RUNNING) ∧
    (s.state = UState.HALTED → 0 < s.ih_Cnt →
      (uMCP_loop_autostart s).state = UState.ISTART ∧
      (uMCP_loop_autostart s).olFrame =
        some (uMCP_CtrlSend_bytes PTYPE_STR SIDc TIDc 0 0)) := by
  refine ⟨?_, ?_, ?_, ?_, ?_⟩
  · intro hp hs
    rcases hs with hs | hs <;>
      simp [uMCP_OnIncomingPacket, hp, selectSet_state, hs, ctrlSend_state,
        ctrlSend_olFrame, itss_state, uMCP_STATE_Set]
  · intro hp hs
    simp [uMCP_OnIncomingPacket, hp, selectSet_state, hs, ctrlSend_state,
      ctrlSend_olFrame, itss_state, uMCP_STATE_Set]
  · intro hp hs
    rcases hs with hs | hs | hs <;>
      simp [uMCP_OnIncomingPacket, hp, selectSet_state, hs, ctrlSend_state,
        ctrlSend_olFrame, itss_state, uMCP_STATE_Set, PTYPE_STA, PTYPE_STR]
  · intro hp hr hs
    simp [uMCP_OnIncomingPacket, hp, hr, hs, selectSet_state, itss_state,
      uMCP_STATE_Set, PTYPE_ACK, PTYPE_STA, PTYPE_STR, PTYPE_REP]
  · intro hs hc
    simp [uMCP_loop_autostart, hs, hc, ctrlSend_state, ctrlSend_olFrame,
      uMCP_STATE_Set]

/-- Witness for C3 at a concrete input: an STR packet arriving at the reset
(HALTED) node. -/
theorem C3_handshake_transitions_witness :
    (uMCP_OnIncomingPacket
        { ptype := 40, sid := 0, tid := 0, tcnt := 0, rcnt := 0, dcnt := 0,
          datablock := fun _ => 0 } pInit).state = UState.ASTART ∧
    (uMCP_OnIncomingPacket
        { ptype := 40, sid := 0, tid := 0, tcnt := 0, rcnt := 0, dcnt := 0,
          datablock := fun _ => 0 } pInit).olFrame =
      some (uMCP_CtrlSend_bytes PTYPE_STA SIDc TIDc 0 0) :=
  (C3_handshake_transitions
    { ptype := 40, sid := 0, tid := 0, tcnt := 0, rcnt := 0, dcnt := 0,
      datablock := fun _ => 0 } pInit).1 rfl (Or.inl rfl)

end UMCP

namespace UMCP

theorem datag_N_DTE (perf : PState → PState) (t r rp c : Nat) (b : Bool) (s : PState) :
    (uMCP_DataSend_g perf true t r rp c b s).N = s.N := by
  simp [uMCP_DataSend_g, uMCP_SELECT_Set_g, uMCP_ITimer_Init, uMCP_ITimer_StateSet,
    apply_ite]

@[simp] theorem itss_olFrame (id : TimerID) (v : Bool) (s : PState) :
    (uMCP_ITimer_StateSet id v s).olFrame = s.olFrame := by
  simp [uMCP_ITimer_StateSet, apply_ite]

@[simp] theorem itss_N (id : TimerID) (v : Bool) (s : PState) :
    (uMCP_ITimer_StateSet id v s).N = s.N := by
  simp [uMCP_ITimer_StateSet, apply_ite]

theorem itss_iTimer_State (id : TimerID) (v : Bool) (s : PState) (id2 : TimerID) :
    (uMCP_ITimer_StateSet id v s).iTimer_State id2 =
      if id2 = id then v else s.iTimer_State id2 := by
  cases v <;> simp [uMCP_ITimer_StateSet, tupd]

@[simp] theorem iti_olFrame (id : TimerID) (n : Nat) (v : Bool) (s : PState) :
    (uMCP_ITimer_Init id n v s).olFrame = s.olFrame := by
  simp [uMCP_ITimer_Init]

@[simp] theorem iti_N (id : TimerID) (n : Nat) (v : Bool) (s : PState) :
    (uMCP_ITimer_Init id n v s).N = s.N := by
  simp [uMCP_ITimer_Init]

theorem iti_iTimer_State (id : TimerID) (n : Nat) (v : Bool) (s : PState) (id2 : TimerID) :
    (uMCP_ITimer_Init id n v s).iTimer_State id2 =
      if id2 = id then v else s.iTimer_State id2 := by
  simp [uMCP_ITimer_Init, itss_iTimer_State]

/-- With the TX timer armed, `uMCP_Protocol_Perform` is the identity: its
send guard requires the TX timer to be inactive. -/
theorem perform_noop : ∀ (f : Nat) (s : PState),
    s.iTimer_State TimerID.TX = true → uMCP_Protocol_Perform f s = s := by
  intro f s h
  cases f <;> simp [uMCP_Protocol_Perform, h]

/-- With the TX timer armed, `uMCP_SELECT_Set` only touches the SELECT timer
and the `select` flag: the re-entrant `uMCP_Protocol_Perform` is a no-op. -/
theorem selg_olFrame {perf : PState → PState}
    (hperf : ∀ t, t.iTimer_State TimerID.TX = true → perf t = t)
    (v : Bool) (s : PState) (h : s.iTimer_State TimerID.TX = true) :
    (uMCP_SELECT_Set_g perf v s).olFrame = s.olFrame := by
  cases v
  · simp [uMCP_SELECT_Set_g, apply_ite]
  · simp only [uMCP_SELECT_Set_g, if_true]
    rw [hperf]
    · simp [apply_ite]
    · split <;> simp [itss_iTimer_State, h]

theorem selg_N {perf : PState → PState}
    (hperf : ∀ t, t.iTimer_State TimerID.TX = true → perf t = t)
    (v : Bool) (s : PState) (h : s.iTimer_State TimerID.TX = true) :
    (uMCP_SELECT_Set_g perf v s).N = s.N := by
  cases v
  · simp [uMCP_SELECT_Set_g, apply_ite]
  · simp only [uMCP_SELECT_Set_g, if_true]
    rw [hperf]
    · simp [apply_ite]
    · split <;> simp [itss_iTimer_State, h]

/-- Any `uMCP_DataSend` leaves its frame in the line output buffer: the
nested `uMCP_Protocol_Perform` (entered for DTA sends, which keep SELECT)
is a no-op because `uMCP_DataSend` armed the TX timer first. -/
theorem datag_olFrame_any {perf : PState → PState}
    (hperf : ∀ t, t.iTimer_State TimerID.TX = true → perf t = t)
    (d : Bool) (t r rp c : Nat) (b : Bool) (s : PState) :
    (uMCP_DataSend_g perf d t r rp c b s).olFrame =
      some (uMCP_DataSend_bytes d SIDc TIDc t r rp c s.ih_ring) := by
  simp only [uMCP_DataSend_g]
  rw [selg_olFrame hperf]
  · simp
  · simp [iti_iTimer_State]

theorem datag_N_any {perf : PState → PState}
    (hperf : ∀ t, t.iTimer_State TimerID.TX = true → perf t = t)
    (d : Bool) (t r rp c : Nat) (b : Bool) (s : PState) :
    (uMCP_DataSend_g perf d t r rp c b s).N = s.N := by
  simp only [uMCP_DataSend_g]
  rw [selg_N hperf]
  · simp
  · simp [iti_iTimer_State]

end UMCP

namespace UMCP

/-- One unfolding step of `protoPerform`, keeping the recursive occurrence
of `uMCP_Protocol_Perform` opaque. -/
theorem protoPerform_unfold (s : PState) :
    protoPerform s =
      (if s.state = UState.RUNNING then
        if !(s.iTimer_State TimerID.TX) && !(s.iTimer_State TimerID.TMO) && s.select then
          if s.ih_Cnt = 0 then
            if s.srep then
              let s1 := uMCP_CtrlSend_g (uMCP_Protocol_Perform 15) PTYPE_REP s.N 0 true s
              { s1 with srep := false }
            else if s.sentBlocksCnt > 0 then
              uMCP_DataBlockResend_g (uMCP_Protocol_Perform 15) ((s.A + 1) % 256) true true s
            else if (!s.selectDefaultState) || s.sack then
              let s1 := uMCP_CtrlSend_g (uMCP_Protocol_Perform 15) PTYPE_ACK s.N s.R false s
              { s1 with sack := false }
            else s
          else
            if s.ih_Cnt ≥ CFG_DATABLOCK_SIZE ∨ s.ih_TS + CFG_NAGLE_DELAY_MS < s.now then
              uMCP_NextDataBlockSend_g (uMCP_Protocol_Perform 15) { s with N := (s.N + 1) % 256 }
            else s
        else s
      else s) := rfl

/-- Claim C4: the send priorities of `uMCP_Protocol_Perform` while RUNNING,
holding SELECT, with neither the TX nor the TIMEOUT timer active: with an
empty ring buffer, REP(N,0) if `srep`, else resend of block `A+1` (releasing
SELECT), else ACK(N,R) clearing `sack` when the default-hold policy is off
or an ack is pending; with a non-empty ring buffer, N is incremented and
the next block is sent once full or the Nagle delay elapsed, a
less-than-full block being typed DTE (and releasing SELECT). -/
theorem C4_running_send_priorities (s : PState)
    (hst : s.state = UState.RUNNING) (hsel : s.select = true)
    (htx : s.iTimer_State TimerID.TX = false)
    (htmo : s.iTimer_State TimerID.TMO = false) :
    (s.ih_Cnt = 0 → s.srep = true →
      (protoPerform s).olFrame = some (uMCP_CtrlSend_bytes PTYPE_REP SIDc TIDc s.N 0) ∧
      (protoPerform s).srep = false) ∧
    (s.ih_Cnt = 0 → s.srep = false → 0 < s.sentBlocksCnt →
      s.sentBlocksSize ((s.A + 1) % 256) ≠ 0 →
      (protoPerform s).olFrame = some (uMCP_DataSend_bytes true SIDc TIDc
        ((s.A + 1) % 256) s.R (s.sentBlocksRPos ((s.A + 1) % 256))
        (s.sentBlocksSize ((s.A + 1) % 256)) s.ih_ring) ∧
      (protoPerform s).select = false) ∧
    (s.ih_Cnt = 0 → s.srep = false → s.sentBlocksCnt = 0 →
      (s.selectDefaultState = false ∨ s.sack = true) →
      (protoPerform s).olFrame = some (uMCP_CtrlSend_bytes PTYPE_ACK SIDc TIDc s.N s.R) ∧
      (protoPerform s).sack = false) ∧
    (0 < s.ih_Cnt → s.ih_Cnt < CFG_DATABLOCK_SIZE →
      s.ih_TS + CFG_NAGLE_DELAY_MS < s.now →
      (protoPerform s).N = (s.N + 1) % 256 ∧
      (protoPerform s).olFrame = some (uMCP_DataSend_bytes true SIDc TIDc
        ((s.N + 1) % 256) s.R s.ih_rPos s.ih_Cnt s.ih_ring) ∧
      (protoPerform s).select = false) ∧
    (CFG_DATABLOCK_SIZE ≤ s.ih_Cnt →
      (protoPerform s).N = (s.N + 1) % 256 ∧
      (protoPerform s).olFrame = some (uMCP_DataSend_bytes
        (decide (UMCP_PIPELINE_LIMIT ≤ s.sentBlocksCnt)) SIDc TIDc
        ((s.N + 1) % 256) s.R s.ih_rPos CFG_DATABLOCK_SIZE s.ih_ring)) := by
  refine ⟨?_, ?_, ?_, ?_, ?_⟩
  · intro h0 hsr
    simp [protoPerform, uMCP_Protocol_Perform, hst, hsel, htx, htmo, h0, hsr,
      ctrlg_olFrame]
  · intro h0 hsr hbc hbs
    simp [protoPerform, uMCP_Protocol_Perform, hst, hsel, htx, htmo, h0, hsr, hbc,
      uMCP_DataBlockResend_g, hbs, datag_olFrame_DTE, datag_select_DTE]
  · intro h0 hsr hbc hd
    rcases hd with hd | hd <;>
      simp [protoPerform, uMCP_Protocol_Perform, hst, hsel, htx, htmo, h0, hsr, hbc,
        hd, ctrlg_olFrame]
  · intro h0 hlt hN
    have h0' : ¬ s.ih_Cnt = 0 := by omega
    have hge : ¬ CFG_DATABLOCK_SIZE ≤ s.ih_Cnt := by omega
    simp [protoPerform, uMCP_Protocol_Perform, hst, hsel, htx, htmo, h0', hge, hN,
      uMCP_NextDataBlockSend_g, hlt, datag_olFrame_DTE, datag_select_DTE, datag_N_DTE]
  · intro hge
    have h0' : ¬ s.ih_Cnt = 0 := by
      have : (32 : Nat) ≤ s.ih_Cnt := hge
      omega
    have hlt' : ¬ s.ih_Cnt < CFG_DATABLOCK_SIZE := by omega
    rw [protoPerform_unfold]
    simp [hst, hsel, htx, htmo, h0', hge, hlt', uMCP_NextDataBlockSend_g,
      datag_olFrame_any (perform_noop 15), datag_N_any (perform_noop 15)]

/-- Witness for C4 at a concrete input: a RUNNING node with a pending REP. -/
theorem C4_running_send_priorities_witness :
    (let s := { pInit with state := UState.RUNNING, srep := true }
     (protoPerform s).olFrame = some (uMCP_CtrlSend_bytes PTYPE_REP SIDc TIDc s.N 0) ∧
     (protoPerform s).srep = false) :=
  (C4_running_send_priorities
    { pInit with state := UState.RUNNING, srep := true }
    rfl rfl rfl rfl).1 rfl rfl

end UMCP

namespace UMCP

theorem host_step_bound (c : Nat) (s : PState) (h : s.ih_Cnt ≤ CR_RING_SIZE + 1) :
    (uMCP_OnNewByte_host c s).ih_Cnt ≤ CR_RING_SIZE + 1 := by
  unfold uMCP_OnNewByte_host
  split <;> simp [CR_RING_SIZE] at * <;> omega

/-- Claim C9 amended: from any state within the (off-by-one) bound, the host
byte handler keeps `ih_Cnt ≤ CR_RING_SIZE + 1`; the byte arriving with the
buffer exactly full is still written (count reaches 257), and a byte
arriving beyond the bound is not written into the ring and is reported as
a TX overflow. -/
theorem C9_ring_bound_amended (l : List Nat) (s : PState)
    (h : s.ih_Cnt ≤ CR_RING_SIZE + 1) :
    (feedHost l s).ih_Cnt ≤ CR_RING_SIZE + 1 ∧
    (∀ c, s.ih_Cnt = CR_RING_SIZE → (uMCP_OnNewByte_host c s).ih_Cnt = CR_RING_SIZE + 1) ∧
    (∀ c, CR_RING_SIZE < s.ih_Cnt →
      (uMCP_OnNewByte_host c s).ih_ring = s.ih_ring ∧
      (uMCP_OnNewByte_host c s).ih_Cnt = s.ih_Cnt ∧
      (uMCP_OnNewByte_host c s).txOverflow = true) := by
  refine ⟨?_, ?_, ?_⟩
  · induction l generalizing s with
    | nil => exact h
    | cons c l ih => exact ih _ (host_step_bound c s h)
  · intro c hfull
    simp [uMCP_OnNewByte_host, hfull, CR_RING_SIZE]
  · intro c hover
    have : ¬ s.ih_Cnt ≤ CR_RING_SIZE := by omega
    simp [uMCP_OnNewByte_host, this]

/-- Witness for C9's amended statement at the reset state. -/
theorem C9_ring_bound_amended_witness :
    (feedHost [65] pInit).ih_Cnt ≤ CR_RING_SIZE + 1 ∧
    (∀ c, pInit.ih_Cnt = CR_RING_SIZE →
      (uMCP_OnNewByte_host c pInit).ih_Cnt = CR_RING_SIZE + 1) ∧
    (∀ c, CR_RING_SIZE < pInit.ih_Cnt →
      (uMCP_OnNewByte_host c pInit).ih_ring = pInit.ih_ring ∧
      (uMCP_OnNewByte_host c pInit).ih_Cnt = pInit.ih_Cnt ∧
      (uMCP_OnNewByte_host c pInit).txOverflow = true) :=
  C9_ring_bound_amended [65] pInit (by decide)

end UMCP

namespace UMCP

/-- Loop invariant of `uMCP_IsByteInRangeExclusive`: starting at `idx`, the
values tested are exactly `(idx + k) % 256` for `1 ≤ k ≤ (ndm - idx) mod 256`
(the walk stops on reaching `ndm`). -/
theorem inRangeLoop_iff : ∀ (f ndm idx v : Nat), ndm < 256 → idx < 256 →
    (ndm + 256 - idx) % 256 < f →
    (inRangeLoop ndm v idx f = true ↔
      ∃ k, 1 ≤ k ∧ k ≤ (ndm + 256 - idx) % 256 ∧ v = (idx + k) % 256) := by
  intro f
  induction f with
  | zero => intro ndm idx v h1 h2 h3; exact absurd h3 (by omega)
  | succ f ih =>
    intro ndm idx v h1 h2 h3
    by_cases hEnd : idx = ndm
    · subst hEnd
      simp only [inRangeLoop, if_pos rfl]
      exact iff_of_false (by simp) (by rintro ⟨k, hk1, hk2, -⟩; omega)
    · simp only [inRangeLoop, if_neg hEnd]
      by_cases hHit : (idx + 1) % 256 = v
      · rw [if_pos hHit]
        exact iff_of_true rfl ⟨1, by omega, by omega, by omega⟩
      · rw [if_neg hHit]
        rw [ih ndm ((idx + 1) % 256) v h1 (by omega) (by omega)]
        constructor
        · rintro ⟨k, hk1, hk2, hkv⟩
          exact ⟨k + 1, by omega, by omega, by omega⟩
        · rintro ⟨k, hk1, hk2, hkv⟩
          exact ⟨k - 1, by omega, by omega, by omega⟩

/-- `inRangeExclusiveSpec` unfolded to its existential meaning. -/
theorem inRangeExclusiveSpec_iff (a n v : Nat) :
    inRangeExclusiveSpec a n v = true ↔
      ∃ k, 1 ≤ k ∧ k < (n + 256 - a) % 256 ∧ v = (a + k) % 256 := by
  simp only [inRangeExclusiveSpec, List.any_eq_true, List.mem_range,
    Bool.and_eq_true, decide_eq_true_eq]
  constructor
  · rintro ⟨k, hk, h1, hv⟩; exact ⟨k, h1, hk, hv⟩
  · rintro ⟨k, h1, hk, hv⟩; exact ⟨k, hk, h1, hv⟩

/-- Claim C5 amended: the acceptance test `v == N ||
uMCP_IsByteInRangeExclusive(A, N, v)` holds exactly when `v = N`, or
`A ≠ N` and `v` lies strictly within the exclusive circular range `(A, N)`
mod 256, or `A = N` and `v ≠ A` (for equal endpoints the code's range is
every byte except `A`, not the empty range); in particular, for `A=200`,
`N=5` (wrapped), `v=203` is acceptable while `v=100` is not. -/
theorem C5_acceptance_characterisation (A N v : Nat)
    (hA : A < 256) (hN : N < 256) (hv : v < 256) :
    ((v = N ∨ uMCP_IsByteInRangeExclusive A N v = true) ↔
      (v = N ∨ (A ≠ N ∧ inRangeExclusiveSpec A N v = true) ∨ (A = N ∧ v ≠ A))) ∧
    uMCP_IsByteInRangeExclusive 200 5 203 = true ∧
    uMCP_IsByteInRangeExclusive 200 5 100 = false := by
  refine ⟨?_, by decide, by decide⟩
  unfold uMCP_IsByteInRangeExclusive
  rw [inRangeLoop_iff 256 ((N + 255) % 256) A v (by omega) hA (by omega)]
  by_cases hAN : A = N
  · subst hAN
    constructor
    · intro h
      by_cases hvA : v = A
      · exact Or.inl hvA
      · exact Or.inr (Or.inr ⟨rfl, hvA⟩)
    · rintro (h | ⟨hne, -⟩ | ⟨-, hne⟩)
      · exact Or.inl h
      · exact absurd rfl hne
      · exact Or.inr ⟨(v + 256 - A) % 256, by omega, by omega, by omega⟩
  · rw [inRangeExclusiveSpec_iff]
    constructor
    · rintro (h | ⟨k, hk1, hk2, hkv⟩)
      · exact Or.inl h
      · exact Or.inr (Or.inl ⟨hAN, ⟨k, hk1, by omega, hkv⟩⟩)
    · rintro (h | ⟨-, ⟨k, hk1, hk2, hkv⟩⟩ | ⟨he, -⟩)
      · exact Or.inl h
      · exact Or.inr ⟨k, hk1, by omega, hkv⟩
      · exact absurd he hAN

/-- Witness for C5's amended statement at the spec's wrapped example
`A=200, N=5, v=203`. -/
theorem C5_acceptance_characterisation_witness :
    (((203 : Nat) = 5 ∨ uMCP_IsByteInRangeExclusive 200 5 203 = true) ↔
      ((203 : Nat) = 5 ∨ ((200 : Nat) ≠ 5 ∧ inRangeExclusiveSpec 200 5 203 = true) ∨
        ((200 : Nat) = 5 ∧ (203 : Nat) ≠ 200))) ∧
    uMCP_IsByteInRangeExclusive 200 5 203 = true ∧
    uMCP_IsByteInRangeExclusive 200 5 100 = false :=
  C5_acceptance_characterisation 200 5 203 (by decide) (by decide) (by decide)

end UMCP

namespace UMCP

/-- Store a byte list at consecutive offsets, as the deframer's data-byte
writes do. -/
def storeBytes (f : Nat → Nat) : Nat → List Nat → (Nat → Nat)
  | _, [] => f
  | w, b :: bs => storeBytes (upd f w b) (w + 1) bs

theorem storeBytes_apply (bs : List Nat) : ∀ (f : Nat → Nat) (w i : Nat),
    storeBytes f w bs i =
      if w ≤ i ∧ i < w + bs.length then bs.getD (i - w) 0 else f i := by
  induction bs with
  | nil =>
    intro f w i
    simp only [storeBytes, List.length_nil, Nat.add_zero]
    rw [if_neg (by omega)]
  | cons b bs ih =>
    intro f w i
    simp only [storeBytes, List.length_cons]
    rw [ih]
    by_cases h1 : w + 1 ≤ i ∧ i < w + 1 + bs.length
    · rw [if_pos h1, if_pos (by omega)]
      have he : i - w = (i - (w + 1)) + 1 := by omega
      rw [he, List.getD_cons_succ]
    · rw [if_neg h1]
      by_cases h2 : i = w
      · subst h2
        rw [if_pos (by omega), Nat.sub_self, List.getD_cons_zero, upd_same]
      · rw [if_neg (by omega), upd_apply, if_neg h2]

/-- Data-collection phase of the deframer: while `ip_pos` is strictly
between 8 and `8 + ip_dcnt`, each byte is stored at `ip_pos - 8`, folded
into the data CRC, and advances the position, with no ready event. -/
theorem df_run_data_phase : ∀ (bs : List Nat) (s : DFState) (w : Nat) (rest : List Nat),
    s.ip_start = true → s.ip_ready = false →
    ¬(s.ip_type = PTYPE_STR ∨ s.ip_type = PTYPE_STA) → s.ip_type ≠ PTYPE_REP →
    s.ip_pos = 8 + w → w + bs.length ≤ s.ip_dcnt →
    df_run s (bs ++ rest) =
      df_run { s with ip_pos := 8 + (w + bs.length),
                      ip_ahchk := crcFold s.ip_ahchk bs,
                      ip_datablock := storeBytes s.ip_datablock w bs } rest := by
  intro bs
  induction bs with
  | nil =>
    intro s w rest h1 h2 h3 h4 hpos hlen
    simp only [List.nil_append, List.length_nil, Nat.add_zero, crcFold_nil, storeBytes]
    rw [← hpos]
  | cons b bs ih =>
    intro s w rest h1 h2 h3 h4 hpos hlen
    simp only [List.length_cons] at hlen
    have c1 : ¬(s.ip_pos = 1) := by omega
    have c2 : ¬(s.ip_pos ≤ 3) := by omega
    have c4 : ¬(s.ip_pos = 4) := by omega
    have c5 : ¬(s.ip_pos = 5) := by omega
    have c6 : ¬(s.ip_pos = 6) := by omega
    have c7 : ¬(s.ip_pos = 7) := by omega
    have c8 : ¬(s.ip_pos = 8 + s.ip_dcnt) := by omega
    have step : uMCP_OnNewByte_line b s =
        { s with ip_datablock := upd s.ip_datablock (s.ip_pos - 8) b,
                 ip_ahchk := CRC8_Update s.ip_ahchk b,
                 ip_pos := s.ip_pos + 1 } := by
      simp only [uMCP_OnNewByte_line, if_pos h1, if_neg c1, if_neg c2, if_neg h3,
        if_neg c4, if_neg h4, if_neg c5, if_neg c6, if_neg c7, if_neg c8]
    rw [List.cons_append]
    simp only [df_run]
    rw [step]
    simp only [h2, Bool.false_eq_true, if_false]
    rw [ih { s with ip_datablock := upd s.ip_datablock (s.ip_pos - 8) b,
                    ip_ahchk := CRC8_Update s.ip_ahchk b,
                    ip_pos := s.ip_pos + 1, ip_ready := false } (w + 1) rest h1 rfl h3 h4
      (show s.ip_pos + 1 = 8 + (w + 1) by omega)
      (show w + 1 + bs.length ≤ s.ip_dcnt by omega)]
    have hw : s.ip_pos - 8 = w := by omega
    rw [hw]
    simp only [crcFold_cons, storeBytes, List.length_cons]
    have he : w + 1 + bs.length = w + (bs.length + 1) := by omega
    rw [he]



theorem df_run_ctrl_STR (s0 : DFState) (h1 : s0.ip_start = false)
    (h2 : s0.ip_ready = false) (sid tid tcnt rcnt : Nat) :
    (df_run s0 (uMCP_CtrlSend_bytes PTYPE_STR sid tid tcnt rcnt)).2.map
      (fun p => (p.ptype, p.sid, p.tid)) = [(PTYPE_STR, sid, tid)] := by
  simp [uMCP_CtrlSend_bytes, CRC8_Get, crcFold, PTYPE_STR, PTYPE_REP, PTYPE_ACK,
    PTYPE_STA, PTYPE_INVALID, UMCP_SIGN, df_run, uMCP_OnNewByte_line, h1, h2,
    df_extract]

end UMCP

namespace UMCP

theorem map_range_getD (l : List Nat) :
    (List.range l.length).map (fun i => l.getD i 0) = l := by
  induction l with
  | nil => simp
  | cons b bs ih =>
    simp only [List.length_cons, List.range_succ_eq_map, List.map_cons,
      List.getD_cons_zero, List.map_map]
    refine congrArg (b :: ·) ?_
    calc (List.range bs.length).map ((fun i => (b :: bs).getD i 0) ∘ Nat.succ)
        = (List.range bs.length).map (fun i => bs.getD i 0) := by
          refine List.map_congr_left ?_
          intro i _
          simp [List.getD_cons_succ]
      _ = bs := ih

/-- `CRC8_Get` over the data section (offset 7) of a framed packet is the
CRC fold of that section. -/
theorem CRC8_Get_append_right (h7 body : List Nat) (hl : h7.length = 7) (n : Nat)
    (hn : body.length = n) : CRC8_Get (h7 ++ body) 7 n = crcFold 255 body := by
  subst hn
  rw [CRC8_Get, ← hl, List.drop_left, List.take_length]

theorem df_run_step_notReady (c : Nat) (s t : DFState) (rest : List Nat)
    (hstep : uMCP_OnNewByte_line c s = t) (hnr : t.ip_ready = false) :
    df_run s (c :: rest) = df_run t rest := by
  simp only [df_run, hstep, hnr, Bool.false_eq_true, if_false]

theorem df_run_step_ready (c : Nat) (s t : DFState) (rest : List Nat)
    (hstep : uMCP_OnNewByte_line c s = t) (hr : t.ip_ready = true) :
    df_run s (c :: rest) =
      ((df_run { t with ip_ready := false } rest).1,
        df_extract t :: (df_run { t with ip_ready := false } rest).2) := by
  simp only [df_run, hstep, hr, if_true]

theorem map_range_storeBytes (f : Nat → Nat) (data : List Nat) :
    (List.range data.length).map (storeBytes f 0 data) = data := by
  refine List.ext_getElem (by simp) ?_
  intro i hi1 hi2
  simp only [List.getElem_map, List.getElem_range]
  rw [storeBytes_apply, if_pos (by simp at hi1; omega)]
  rw [Nat.sub_zero, List.getD_eq_getElem _ _ (by simp at hi1; omega)]

/-- Core of the data-frame round trip: running the deframer over an
explicitly laid out DTA/DTE frame delivers exactly one packet with the
frame's type, ids, counters and payload. -/
theorem df_run_data_frame_core (s0 : DFState) (h1 : s0.ip_start = false)
    (h2 : s0.ip_ready = false) (pt sid tid tcnt rcnt cnt : Nat) (data : List Nat)
    (hpt : pt = 17 ∨ pt = 49) (hc1 : 1 ≤ cnt) (hc2 : cnt ≤ 32)
    (hdl : data.length = cnt) :
    (df_run s0 (173 :: pt :: sid :: tid :: tcnt :: rcnt ::
        crcFold 255 [173, pt, sid, tid, tcnt, rcnt] ::
        cnt :: (data ++ [crcFold 255 (cnt :: data)]))).2 =
      [{ ptype := pt, sid := sid, tid := tid, tcnt := tcnt, rcnt := rcnt,
         dcnt := cnt, payload := data }] := by
  have hp50 : ¬(pt = 50) := by rcases hpt with h | h <;> simp [h]
  have hpSS : ¬(pt = 40 ∨ pt = 36) := by rcases hpt with h | h <;> simp [h]
  have hp34 : ¬(pt = 34) := by rcases hpt with h | h <;> simp [h]
  have hp33 : ¬(pt = 33) := by rcases hpt with h | h <;> simp [h]
  rw [df_run_step_notReady 173 s0 { s0 with ip_start := true, ip_pos := 1, ip_ahchk := CRC8_Update 255 173, ip_type := 50, ip_dcnt := 0 } _ (by simp [uMCP_OnNewByte_line, h1, UMCP_SIGN, PTYPE_INVALID]) h2]
  rw [df_run_step_notReady pt _ { s0 with ip_start := true, ip_pos := 2, ip_ahchk := CRC8_Update (CRC8_Update 255 173) pt, ip_type := pt, ip_dcnt := 0 } _ (by simp [uMCP_OnNewByte_line, PTYPE_INVALID, hp50]) h2]
  rw [df_run_step_notReady sid _ { s0 with ip_start := true, ip_pos := 3, ip_ahchk := CRC8_Update (CRC8_Update (CRC8_Update 255 173) pt) sid, ip_type := pt, ip_sid := sid, ip_dcnt := 0 } _ (by simp [uMCP_OnNewByte_line]) h2]
  rw [df_run_step_notReady tid _ { s0 with ip_start := true, ip_pos := 4, ip_ahchk := CRC8_Update (CRC8_Update (CRC8_Update (CRC8_Update 255 173) pt) sid) tid, ip_type := pt, ip_sid := sid, ip_tid := tid, ip_dcnt := 0 } _ (by simp [uMCP_OnNewByte_line]) h2]
  rw [df_run_step_notReady tcnt _ { s0 with ip_start := true, ip_pos := 5, ip_ahchk := CRC8_Update (CRC8_Update (CRC8_Update (CRC8_Update (CRC8_Update 255 173) pt) sid) tid) tcnt, ip_type := pt, ip_sid := sid, ip_tid := tid, ip_tcnt := tcnt, ip_dcnt := 0 } _ (by simp [uMCP_OnNewByte_line, PTYPE_STR, PTYPE_STA, hpSS]) h2]
  rw [df_run_step_notReady rcnt _ { s0 with ip_start := true, ip_pos := 6, ip_ahchk := CRC8_Update (CRC8_Update (CRC8_Update (CRC8_Update (CRC8_Update (CRC8_Update 255 173) pt) sid) tid) tcnt) rcnt, ip_type := pt, ip_sid := sid, ip_tid := tid, ip_tcnt := tcnt, ip_rcnt := rcnt, ip_dcnt := 0 } _ (by simp [uMCP_OnNewByte_line, PTYPE_STR, PTYPE_STA, PTYPE_REP, hpSS, hp34]) h2]
  rw [df_run_step_notReady (crcFold 255 [173, pt, sid, tid, tcnt, rcnt]) _ { s0 with ip_start := true, ip_pos := 7, ip_ahchk := CRC8_Update (CRC8_Update (CRC8_Update (CRC8_Update (CRC8_Update (CRC8_Update 255 173) pt) sid) tid) tcnt) rcnt, ip_type := pt, ip_sid := sid, ip_tid := tid, ip_tcnt := tcnt, ip_rcnt := rcnt, ip_dcnt := 0 } _ (by simp [uMCP_OnNewByte_line, PTYPE_STR, PTYPE_STA, PTYPE_REP, PTYPE_ACK, hpSS, hp34, hp33, crcFold_cons, crcFold_nil]) h2]
  rw [df_run_step_notReady cnt _ { s0 with ip_start := true, ip_pos := 8, ip_ahchk := CRC8_Update 255 cnt, ip_type := pt, ip_sid := sid, ip_tid := tid, ip_tcnt := tcnt, ip_rcnt := rcnt, ip_dcnt := cnt } _ (by simp [uMCP_OnNewByte_line, PTYPE_STR, PTYPE_STA, PTYPE_REP, hpSS, hp34, hc1]) h2]
  rw [df_run_data_phase data { s0 with ip_start := true, ip_pos := 8, ip_ahchk := CRC8_Update 255 cnt, ip_type := pt, ip_sid := sid, ip_tid := tid, ip_tcnt := tcnt, ip_rcnt := rcnt, ip_dcnt := cnt } 0 _ rfl h2 hpSS hp34 rfl (by simp [hdl])]
  rw [df_run_step_ready (crcFold 255 (cnt :: data)) _ { s0 with ip_start := false, ip_pos := 8 + (0 + data.length), ip_ahchk := crcFold (CRC8_Update 255 cnt) data, ip_type := pt, ip_sid := sid, ip_tid := tid, ip_tcnt := tcnt, ip_rcnt := rcnt, ip_dcnt := cnt, ip_ready := true, ip_datablock := storeBytes s0.ip_datablock 0 data } _ (by
      have d1 : ¬(8 + cnt = 1) := by omega
      have d2 : ¬(8 + cnt ≤ 3) := by omega
      have d4 : ¬(8 + cnt = 4) := by omega
      have d5 : ¬(8 + cnt = 5) := by omega
      have d6 : ¬(8 + cnt = 6) := by omega
      have d7 : ¬(8 + cnt = 7) := by omega
      have dEq : 8 + data.length = 8 + cnt := by omega
      simp [uMCP_OnNewByte_line, PTYPE_STR, PTYPE_STA, PTYPE_REP, hpSS, hp34, d1, d2, d4, d5, d6, d7, dEq, crcFold_cons]) rfl]
  simp only [df_run, df_extract]
  rw [← hdl, map_range_storeBytes]

/-- Round trip of a data frame with count 1..32: delivered exactly once,
with the original type, ids, counters and payload. -/
theorem df_run_data_roundtrip (s0 : DFState) (h1 : s0.ip_start = false)
    (h2 : s0.ip_ready = false) (isDTE : Bool) (sid tid tcnt rcnt rPos cnt : Nat)
    (ring : Nat → Nat) (hc1 : 1 ≤ cnt) (hc2 : cnt ≤ 32) :
    (df_run s0 (uMCP_DataSend_bytes isDTE sid tid tcnt rcnt rPos cnt ring)).2 =
      [{ ptype := if isDTE then PTYPE_DTE else PTYPE_DTA, sid := sid, tid := tid,
         tcnt := tcnt, rcnt := rcnt, dcnt := cnt,
         payload := (List.range cnt).map (fun i => ring ((rPos + i) % CR_RING_SIZE)) }] := by
  have hc : cnt % 256 = cnt := Nat.mod_eq_of_lt (by omega)
  have hdl : ((List.range cnt).map (fun i => ring ((rPos + i) % CR_RING_SIZE))).length = cnt := by
    simp
  cases isDTE with
  | false =>
    have e1 : CRC8_Get [173, 17, sid, tid, tcnt, rcnt] 0 6 =
        crcFold 255 [173, 17, sid, tid, tcnt, rcnt] := by
      simp [CRC8_Get]
    have e2 : CRC8_Get (173 :: 17 :: sid :: tid :: tcnt :: rcnt ::
        crcFold 255 [173, 17, sid, tid, tcnt, rcnt] ::
        cnt :: (List.range cnt).map (fun i => ring ((rPos + i) % CR_RING_SIZE))) 7 (cnt + 1) =
        crcFold 255 (cnt :: (List.range cnt).map (fun i => ring ((rPos + i) % CR_RING_SIZE))) := by
      show CRC8_Get ([173, 17, sid, tid, tcnt, rcnt,
          crcFold 255 [173, 17, sid, tid, tcnt, rcnt]] ++
          (cnt :: (List.range cnt).map (fun i => ring ((rPos + i) % CR_RING_SIZE)))) 7 (cnt + 1) = _
      exact CRC8_Get_append_right _ _ (by simp) _ (by simp [hdl])
    have hframe : uMCP_DataSend_bytes false sid tid tcnt rcnt rPos cnt ring =
        173 :: 17 :: sid :: tid :: tcnt :: rcnt ::
        crcFold 255 [173, 17, sid, tid, tcnt, rcnt] ::
        cnt :: ((List.range cnt).map (fun i => ring ((rPos + i) % CR_RING_SIZE)) ++
          [crcFold 255 (cnt :: (List.range cnt).map (fun i => ring ((rPos + i) % CR_RING_SIZE)))]) := by
      simp only [uMCP_DataSend_bytes, Bool.false_eq_true, if_false, UMCP_SIGN,
        PTYPE_DTA, e1, hc, List.cons_append, List.nil_append, List.append_assoc, e2]
    rw [hframe]
    simpa using df_run_data_frame_core s0 h1 h2 17 sid tid tcnt rcnt cnt
      ((List.range cnt).map (fun i => ring ((rPos + i) % CR_RING_SIZE)))
      (Or.inl rfl) hc1 hc2 hdl
  | true =>
    have e1 : CRC8_Get [173, 49, sid, tid, tcnt, rcnt] 0 6 =
        crcFold 255 [173, 49, sid, tid, tcnt, rcnt] := by
      simp [CRC8_Get]
    have e2 : CRC8_Get (173 :: 49 :: sid :: tid :: tcnt :: rcnt ::
        crcFold 255 [173, 49, sid, tid, tcnt, rcnt] ::
        cnt :: (List.range cnt).map (fun i => ring ((rPos + i) % CR_RING_SIZE))) 7 (cnt + 1) =
        crcFold 255 (cnt :: (List.range cnt).map (fun i => ring ((rPos + i) % CR_RING_SIZE))) := by
      show CRC8_Get ([173, 49, sid, tid, tcnt, rcnt,
          crcFold 255 [173, 49, sid, tid, tcnt, rcnt]] ++
          (cnt :: (List.range cnt).map (fun i => ring ((rPos + i) % CR_RING_SIZE)))) 7 (cnt + 1) = _
      exact CRC8_Get_append_right _ _ (by simp) _ (by simp [hdl])
    have hframe : uMCP_DataSend_bytes true sid tid tcnt rcnt rPos cnt ring =
        173 :: 49 :: sid :: tid :: tcnt :: rcnt ::
        crcFold 255 [173, 49, sid, tid, tcnt, rcnt] ::
        cnt :: ((List.range cnt).map (fun i => ring ((rPos + i) % CR_RING_SIZE)) ++
          [crcFold 255 (cnt :: (List.range cnt).map (fun i => ring ((rPos + i) % CR_RING_SIZE)))]) := by
      simp only [uMCP_DataSend_bytes, if_true, UMCP_SIGN,
        PTYPE_DTE, e1, hc, List.cons_append, List.nil_append, List.append_assoc, e2]
    rw [hframe]
    simpa using df_run_data_frame_core s0 h1 h2 49 sid tid tcnt rcnt cnt
      ((List.range cnt).map (fun i => ring ((rPos + i) % CR_RING_SIZE)))
      (Or.inr rfl) hc1 hc2 hdl

end UMCP

namespace UMCP

theorem df_run_ctrl_STA (s0 : DFState) (h1 : s0.ip_start = false)
    (h2 : s0.ip_ready = false) (sid tid tcnt rcnt : Nat) :
    (df_run s0 (uMCP_CtrlSend_bytes PTYPE_STA sid tid tcnt rcnt)).2.map
      (fun p => (p.ptype, p.sid, p.tid)) = [(PTYPE_STA, sid, tid)] := by
  simp [uMCP_CtrlSend_bytes, CRC8_Get, crcFold, PTYPE_STR, PTYPE_REP, PTYPE_ACK,
    PTYPE_STA, PTYPE_INVALID, UMCP_SIGN, df_run, uMCP_OnNewByte_line, h1, h2,
    df_extract]

theorem df_run_ctrl_REP (s0 : DFState) (h1 : s0.ip_start = false)
    (h2 : s0.ip_ready = false) (sid tid tcnt rcnt : Nat) :
    (df_run s0 (uMCP_CtrlSend_bytes PTYPE_REP sid tid tcnt rcnt)).2.map
      (fun p => (p.ptype, p.sid, p.tid, p.tcnt)) = [(PTYPE_REP, sid, tid, tcnt)] := by
  simp [uMCP_CtrlSend_bytes, CRC8_Get, crcFold, PTYPE_STR, PTYPE_REP, PTYPE_ACK,
    PTYPE_STA, PTYPE_INVALID, UMCP_SIGN, df_run, uMCP_OnNewByte_line, h1, h2,
    df_extract]

theorem df_run_ctrl_ACK (s0 : DFState) (h1 : s0.ip_start = false)
    (h2 : s0.ip_ready = false) (sid tid tcnt rcnt : Nat) :
    (df_run s0 (uMCP_CtrlSend_bytes PTYPE_ACK sid tid tcnt rcnt)).2.map
      (fun p => (p.ptype, p.sid, p.tid, p.tcnt, p.rcnt)) =
      [(PTYPE_ACK, sid, tid, tcnt, rcnt)] := by
  simp [uMCP_CtrlSend_bytes, CRC8_Get, crcFold, PTYPE_STR, PTYPE_REP, PTYPE_ACK,
    PTYPE_STA, PTYPE_INVALID, UMCP_SIGN, df_run, uMCP_OnNewByte_line, h1, h2,
    df_extract]

set_option maxRecDepth 8000 in
theorem df_run_data_zero (s0 : DFState) (h1 : s0.ip_start = false)
    (h2 : s0.ip_ready = false) (isDTE : Bool) (sid tid tcnt rcnt rPos : Nat)
    (ring : Nat → Nat) :
    (df_run s0 (uMCP_DataSend_bytes isDTE sid tid tcnt rcnt rPos 0 ring)).2 =
      [{ ptype := PTYPE_ACK, sid := sid, tid := tid, tcnt := tcnt, rcnt := rcnt,
         dcnt := 0, payload := [] }] := by
  cases isDTE <;>
    simp [uMCP_DataSend_bytes, CRC8_Get, crcFold, PTYPE_DTA, PTYPE_DTE, PTYPE_ACK,
      PTYPE_STR, PTYPE_STA, PTYPE_REP, PTYPE_INVALID, UMCP_SIGN, df_run,
      uMCP_OnNewByte_line, h1, h2, df_extract, CRC8_Update, CRC8Table]

end UMCP


namespace UMCP

/-- Claim C2 amended: feeding the bytes of any frame the framer builds into
the deframer (started outside an in-progress frame) yields exactly one
ready packet with the same type, sender-id, target-id, tx and rx counters
where present, and identical payload — for the control frames STR, STA,
REP, ACK and for data frames with count 1..32.  A data frame with count 0
is the exception: it is delivered as a single packet of type ACK with the
counters preserved and an empty payload. -/
theorem C2_roundtrip_amended (S0 : DFState) (h1 : S0.ip_start = false)
    (h2 : S0.ip_ready = false) :
    (∀ sid tid tcnt rcnt : Nat,
      (df_run S0 (uMCP_CtrlSend_bytes PTYPE_STR sid tid tcnt rcnt)).2.map
        (fun p => (p.ptype, p.sid, p.tid)) = [(PTYPE_STR, sid, tid)]) ∧
    (∀ sid tid tcnt rcnt : Nat,
      (df_run S0 (uMCP_CtrlSend_bytes PTYPE_STA sid tid tcnt rcnt)).2.map
        (fun p => (p.ptype, p.sid, p.tid)) = [(PTYPE_STA, sid, tid)]) ∧
    (∀ sid tid tcnt rcnt : Nat,
      (df_run S0 (uMCP_CtrlSend_bytes PTYPE_REP sid tid tcnt rcnt)).2.map
        (fun p => (p.ptype, p.sid, p.tid, p.tcnt)) = [(PTYPE_REP, sid, tid, tcnt)]) ∧
    (∀ sid tid tcnt rcnt : Nat,
      (df_run S0 (uMCP_CtrlSend_bytes PTYPE_ACK sid tid tcnt rcnt)).2.map
        (fun p => (p.ptype, p.sid, p.tid, p.tcnt, p.rcnt)) =
        [(PTYPE_ACK, sid, tid, tcnt, rcnt)]) ∧
    (∀ (isDTE : Bool) (sid tid tcnt rcnt rPos cnt : Nat) (ring : Nat → Nat),
      1 ≤ cnt → cnt ≤ 32 →
      (df_run S0 (uMCP_DataSend_bytes isDTE sid tid tcnt rcnt rPos cnt ring)).2 =
        [{ ptype := if isDTE then PTYPE_DTE else PTYPE_DTA, sid := sid, tid := tid,
           tcnt := tcnt, rcnt := rcnt, dcnt := cnt,
           payload := (List.range cnt).map (fun i => ring ((rPos + i) % CR_RING_SIZE)) }]) ∧
    (∀ (isDTE : Bool) (sid tid tcnt rcnt rPos : Nat) (ring : Nat → Nat),
      (df_run S0 (uMCP_DataSend_bytes isDTE sid tid tcnt rcnt rPos 0 ring)).2 =
        [{ ptype := PTYPE_ACK, sid := sid, tid := tid, tcnt := tcnt, rcnt := rcnt,
           dcnt := 0, payload := [] }]) := by
  refine ⟨df_run_ctrl_STR S0 h1 h2, df_run_ctrl_STA S0 h1 h2,
    df_run_ctrl_REP S0 h1 h2, df_run_ctrl_ACK S0 h1 h2, ?_, ?_⟩
  · intro isDTE sid tid tcnt rcnt rPos cnt ring hc1 hc2
    exact df_run_data_roundtrip S0 h1 h2 isDTE sid tid tcnt rcnt rPos cnt ring hc1 hc2
  · intro isDTE sid tid tcnt rcnt rPos ring
    exact df_run_data_zero S0 h1 h2 isDTE sid tid tcnt rcnt rPos ring

/-- Witness for C2's amended statement at the power-up deframer state. -/
theorem C2_roundtrip_amended_witness :
    (∀ sid tid tcnt rcnt : Nat,
      (df_run df0 (uMCP_CtrlSend_bytes PTYPE_STR sid tid tcnt rcnt)).2.map
        (fun p => (p.ptype, p.sid, p.tid)) = [(PTYPE_STR, sid, tid)]) ∧
    (∀ sid tid tcnt rcnt : Nat,
      (df_run df0 (uMCP_CtrlSend_bytes PTYPE_STA sid tid tcnt rcnt)).2.map
        (fun p => (p.ptype, p.sid, p.tid)) = [(PTYPE_STA, sid, tid)]) ∧
    (∀ sid tid tcnt rcnt : Nat,
      (df_run df0 (uMCP_CtrlSend_bytes PTYPE_REP sid tid tcnt rcnt)).2.map
        (fun p => (p.ptype, p.sid, p.tid, p.tcnt)) = [(PTYPE_REP, sid, tid, tcnt)]) ∧
    (∀ sid tid tcnt rcnt : Nat,
      (df_run df0 (uMCP_CtrlSend_bytes PTYPE_ACK sid tid tcnt rcnt)).2.map
        (fun p => (p.ptype, p.sid, p.tid, p.tcnt, p.rcnt)) =
        [(PTYPE_ACK, sid, tid, tcnt, rcnt)]) ∧
    (∀ (isDTE : Bool) (sid tid tcnt rcnt rPos cnt : Nat) (ring : Nat → Nat),
      1 ≤ cnt → cnt ≤ 32 →
      (df_run df0 (uMCP_DataSend_bytes isDTE sid tid tcnt rcnt rPos cnt ring)).2 =
        [{ ptype := if isDTE then PTYPE_DTE else PTYPE_DTA, sid := sid, tid := tid,
           tcnt := tcnt, rcnt := rcnt, dcnt := cnt,
           payload := (List.range cnt).map (fun i => ring ((rPos + i) % CR_RING_SIZE)) }]) ∧
    (∀ (isDTE : Bool) (sid tid tcnt rcnt rPos : Nat) (ring : Nat → Nat),
      (df_run df0 (uMCP_DataSend_bytes isDTE sid tid tcnt rcnt rPos 0 ring)).2 =
        [{ ptype := PTYPE_ACK, sid := sid, tid := tid, tcnt := tcnt, rcnt := rcnt,
           dcnt := 0, payload := [] }]) :=
  C2_roundtrip_amended df0 rfl rfl

end UMCP

namespace UMCP

@[simp] theorem itss_A (id : TimerID) (v : Bool) (s : PState) :
    (uMCP_ITimer_StateSet id v s).A = s.A := by
  simp [uMCP_ITimer_StateSet, apply_ite]

@[simp] theorem iti_A (id : TimerID) (n : Nat) (v : Bool) (s : PState) :
    (uMCP_ITimer_Init id n v s).A = s.A := by
  simp [uMCP_ITimer_Init]

@[simp] theorem itss_R (id : TimerID) (v : Bool) (s : PState) :
    (uMCP_ITimer_StateSet id v s).R = s.R := by
  simp [uMCP_ITimer_StateSet, apply_ite]

@[simp] theorem iti_R (id : TimerID) (n : Nat) (v : Bool) (s : PState) :
    (uMCP_ITimer_Init id n v s).R = s.R := by
  simp [uMCP_ITimer_Init]

@[simp] theorem itss_sentBlocksSize (id : TimerID) (v : Bool) (s : PState) :
    (uMCP_ITimer_StateSet id v s).sentBlocksSize = s.sentBlocksSize := by
  simp [uMCP_ITimer_StateSet, apply_ite]

@[simp] theorem iti_sentBlocksSize (id : TimerID) (n : Nat) (v : Bool) (s : PState) :
    (uMCP_ITimer_Init id n v s).sentBlocksSize = s.sentBlocksSize := by
  simp [uMCP_ITimer_Init]

@[simp] theorem itss_sentBlocksRPos (id : TimerID) (v : Bool) (s : PState) :
    (uMCP_ITimer_StateSet id v s).sentBlocksRPos = s.sentBlocksRPos := by
  simp [uMCP_ITimer_StateSet, apply_ite]

@[simp] theorem iti_sentBlocksRPos (id : TimerID) (n : Nat) (v : Bool) (s : PState) :
    (uMCP_ITimer_Init id n v s).sentBlocksRPos = s.sentBlocksRPos := by
  simp [uMCP_ITimer_Init]

@[simp] theorem itss_sentBlocksCnt (id : TimerID) (v : Bool) (s : PState) :
    (uMCP_ITimer_StateSet id v s).sentBlocksCnt = s.sentBlocksCnt := by
  simp [uMCP_ITimer_StateSet, apply_ite]

@[simp] theorem iti_sentBlocksCnt (id : TimerID) (n : Nat) (v : Bool) (s : PState) :
    (uMCP_ITimer_Init id n v s).sentBlocksCnt = s.sentBlocksCnt := by
  simp [uMCP_ITimer_Init]

@[simp] theorem itss_ih_rPos (id : TimerID) (v : Bool) (s : PState) :
    (uMCP_ITimer_StateSet id v s).ih_rPos = s.ih_rPos := by
  simp [uMCP_ITimer_StateSet, apply_ite]

@[simp] theorem iti_ih_rPos (id : TimerID) (n : Nat) (v : Bool) (s : PState) :
    (uMCP_ITimer_Init id n v s).ih_rPos = s.ih_rPos := by
  simp [uMCP_ITimer_Init]

@[simp] theorem itss_ih_wPos (id : TimerID) (v : Bool) (s : PState) :
    (uMCP_ITimer_StateSet id v s).ih_wPos = s.ih_wPos := by
  simp [uMCP_ITimer_StateSet, apply_ite]

@[simp] theorem iti_ih_wPos (id : TimerID) (n : Nat) (v : Bool) (s : PState) :
    (uMCP_ITimer_Init id n v s).ih_wPos = s.ih_wPos := by
  simp [uMCP_ITimer_Init]

@[simp] theorem itss_ih_Cnt (id : TimerID) (v : Bool) (s : PState) :
    (uMCP_ITimer_StateSet id v s).ih_Cnt = s.ih_Cnt := by
  simp [uMCP_ITimer_StateSet, apply_ite]

@[simp] theorem iti_ih_Cnt (id : TimerID) (n : Nat) (v : Bool) (s : PState) :
    (uMCP_ITimer_Init id n v s).ih_Cnt = s.ih_Cnt := by
  simp [uMCP_ITimer_Init]

@[simp] theorem itss_ih_TS (id : TimerID) (v : Bool) (s : PState) :
    (uMCP_ITimer_StateSet id v s).ih_TS = s.ih_TS := by
  simp [uMCP_ITimer_StateSet, apply_ite]

@[simp] theorem iti_ih_TS (id : TimerID) (n : Nat) (v : Bool) (s : PState) :
    (uMCP_ITimer_Init id n v s).ih_TS = s.ih_TS := by
  simp [uMCP_ITimer_Init]

@[simp] theorem itss_ih_ring (id : TimerID) (v : Bool) (s : PState) :
    (uMCP_ITimer_StateSet id v s).ih_ring = s.ih_ring := by
  simp [uMCP_ITimer_StateSet, apply_ite]

@[simp] theorem iti_ih_ring (id : TimerID) (n : Nat) (v : Bool) (s : PState) :
    (uMCP_ITimer_Init id n v s).ih_ring = s.ih_ring := by
  simp [uMCP_ITimer_Init]

@[simp] theorem itss_srep (id : TimerID) (v : Bool) (s : PState) :
    (uMCP_ITimer_StateSet id v s).srep = s.srep := by
  simp [uMCP_ITimer_StateSet, apply_ite]

@[simp] theorem iti_srep (id : TimerID) (n : Nat) (v : Bool) (s : PState) :
    (uMCP_ITimer_Init id n v s).srep = s.srep := by
  simp [uMCP_ITimer_Init]

@[simp] theorem itss_sack (id : TimerID) (v : Bool) (s : PState) :
    (uMCP_ITimer_StateSet id v s).sack = s.sack := by
  simp [uMCP_ITimer_StateSet, apply_ite]

@[simp] theorem iti_sack (id : TimerID) (n : Nat) (v : Bool) (s : PState) :
    (uMCP_ITimer_Init id n v s).sack = s.sack := by
  simp [uMCP_ITimer_Init]

@[simp] theorem itss_select (id : TimerID) (v : Bool) (s : PState) :
    (uMCP_ITimer_StateSet id v s).select = s.select := by
  simp [uMCP_ITimer_StateSet, apply_ite]

@[simp] theorem iti_select (id : TimerID) (n : Nat) (v : Bool) (s : PState) :
    (uMCP_ITimer_Init id n v s).select = s.select := by
  simp [uMCP_ITimer_Init]

@[simp] theorem itss_selectDefaultState (id : TimerID) (v : Bool) (s : PState) :
    (uMCP_ITimer_StateSet id v s).selectDefaultState = s.selectDefaultState := by
  simp [uMCP_ITimer_StateSet, apply_ite]

@[simp] theorem iti_selectDefaultState (id : TimerID) (n : Nat) (v : Bool) (s : PState) :
    (uMCP_ITimer_Init id n v s).selectDefaultState = s.selectDefaultState := by
  simp [uMCP_ITimer_Init]

/-- The sent-block window fields are untouched by `uMCP_SELECT_Set` when
the TX timer is armed (the re-entrant `uMCP_Protocol_Perform` is a no-op). -/
theorem selg_window {perf : PState → PState}
    (hperf : ∀ t, t.iTimer_State TimerID.TX = true → perf t = t)
    (v : Bool) (s : PState) (h : s.iTimer_State TimerID.TX = true) :
    (uMCP_SELECT_Set_g perf v s).A = s.A ∧
    (uMCP_SELECT_Set_g perf v s).sentBlocksSize = s.sentBlocksSize ∧
    (uMCP_SELECT_Set_g perf v s).sentBlocksCnt = s.sentBlocksCnt ∧
    (uMCP_SELECT_Set_g perf v s).ih_rPos = s.ih_rPos ∧
    (uMCP_SELECT_Set_g perf v s).ih_Cnt = s.ih_Cnt ∧
    (uMCP_SELECT_Set_g perf v s).N = s.N := by
  cases v
  · simp [uMCP_SELECT_Set_g, apply_ite]
  · simp only [uMCP_SELECT_Set_g, if_true]
    rw [hperf]
    · simp [apply_ite]
    · split <;> simp [itss_iTimer_State, h]

/-- The sent-block window fields are untouched by `uMCP_DataSend`
(the re-entrant `uMCP_Protocol_Perform` is disabled by the armed TX timer). -/
theorem datag_window_any {perf : PState → PState}
    (hperf : ∀ t, t.iTimer_State TimerID.TX = true → perf t = t)
    (d : Bool) (t r rp c : Nat) (b : Bool) (s : PState) :
    (uMCP_DataSend_g perf d t r rp c b s).A = s.A ∧
    (uMCP_DataSend_g perf d t r rp c b s).sentBlocksSize = s.sentBlocksSize ∧
    (uMCP_DataSend_g perf d t r rp c b s).sentBlocksCnt = s.sentBlocksCnt ∧
    (uMCP_DataSend_g perf d t r rp c b s).ih_rPos = s.ih_rPos ∧
    (uMCP_DataSend_g perf d t r rp c b s).ih_Cnt = s.ih_Cnt ∧
    (uMCP_DataSend_g perf d t r rp c b s).N = s.N := by
  simp only [uMCP_DataSend_g]
  have h := selg_window hperf (!d)
    (uMCP_ITimer_Init TimerID.TX
      (txInterval (uMCP_DataSend_bytes d SIDc TIDc t r rp c s.ih_ring).length) true
      { s with olFrame := some (uMCP_DataSend_bytes d SIDc TIDc t r rp c s.ih_ring),
               ol_ready := true, isTimerPendingOnTxFinish := b })
    (by simp [iti_iTimer_State])
  refine ⟨?_, ?_, ?_, ?_, ?_, ?_⟩ <;>
    simp [h.1, h.2.1, h.2.2.1, h.2.2.2.1, h.2.2.2.2.1, h.2.2.2.2.2]

theorem protoPerform_noop (t : PState) (ht : t.iTimer_State TimerID.TX = true) :
    protoPerform t = t :=
  perform_noop 16 t ht

/-- Effect of one send operation (`N++; uMCP_NextDataBlockSend`) on the
sent-block window: the block is recorded at the raw slot `(N+1) % 256`. -/
theorem opSend_window (s : PState) :
    (opSend s).N = (s.N + 1) % 256 ∧
    (opSend s).A = s.A ∧
    (opSend s).sentBlocksCnt = (s.sentBlocksCnt + 1) % 256 ∧
    (opSend s).sentBlocksSize = upd s.sentBlocksSize ((s.N + 1) % 256)
      ((if s.ih_Cnt < CFG_DATABLOCK_SIZE then s.ih_Cnt else CFG_DATABLOCK_SIZE) % 256) := by
  refine ⟨?_, ?_, ?_, ?_⟩ <;>
    simp only [opSend, uMCP_NextDataBlockSend, uMCP_NextDataBlockSend_g] <;>
    simp [datag_window_any protoPerform_noop]

end UMCP

namespace UMCP

/-- Clearing `d` consecutive slots starting at `a`. -/
def clearRange (f : Nat → Nat) (a d : Nat) : Nat → Nat :=
  fun i => if a ≤ i ∧ i < a + d then 0 else f i

/-- The `uMCP_AcknowledgeSentItems` loop, walking `d` steps without byte
wraparound: `A` advances to `a + d`, the counter drops by `d`, and the
slots `a .. a+d-1` are cleared. -/
theorem ackLoop_spec : ∀ (d fuel a : Nat) (s : PState), s.A = a → a + d ≤ 255 →
    d < fuel → d ≤ s.sentBlocksCnt → s.sentBlocksCnt ≤ 255 →
    ackLoop (a + d) a fuel s =
      { s with A := a + d, sentBlocksCnt := s.sentBlocksCnt - d,
               sentBlocksSize := clearRange s.sentBlocksSize a d } := by
  intro d
  induction d with
  | zero =>
    intro fuel a s hA hle hf hd hc
    subst hA
    obtain ⟨f, rfl⟩ : ∃ f, fuel = f + 1 := ⟨fuel - 1, by omega⟩
    have h1 : clearRange s.sentBlocksSize s.A 0 = s.sentBlocksSize := by
      funext i
      simp only [clearRange]
      rw [if_neg (by omega)]
    simp only [ackLoop, Nat.add_zero, Nat.sub_zero, h1]
    simp
  | succ d ih =>
    intro fuel a s hA hle hf hd hc
    subst hA
    obtain ⟨f, rfl⟩ : ∃ f, fuel = f + 1 := ⟨fuel - 1, by omega⟩
    simp only [ackLoop]
    rw [if_neg (by omega)]
    have e1 : (s.A + 1) % 256 = s.A + 1 := Nat.mod_eq_of_lt (by omega)
    have e2 : (s.sentBlocksCnt + 255) % 256 = s.sentBlocksCnt - 1 := by omega
    rw [e1, e2]
    have harg : s.A + (d + 1) = s.A + 1 + d := by omega
    rw [harg]
    rw [ih f (s.A + 1)
      { s with sentBlocksSize := upd s.sentBlocksSize s.A 0,
               sentBlocksCnt := s.sentBlocksCnt - 1, A := s.A + 1 }
      rfl (by omega) (by omega) (by show d ≤ s.sentBlocksCnt - 1; omega)
      (by show s.sentBlocksCnt - 1 ≤ 255; omega)]
    have hsz : clearRange (upd s.sentBlocksSize s.A 0) (s.A + 1) d =
        clearRange s.sentBlocksSize s.A (d + 1) := by
      funext i
      simp only [clearRange, upd]
      by_cases h1 : s.A + 1 ≤ i ∧ i < s.A + 1 + d
      · rw [if_pos h1, if_pos (by omega)]
      · rw [if_neg h1]
        by_cases h2 : i = s.A
        · rw [if_pos h2, if_pos (by omega)]
        · rw [if_neg h2, if_neg (by omega)]
    rw [hsz]
    have hA2 : s.A + 1 + d = s.A + (d + 1) := by omega
    have hc2 : s.sentBlocksCnt - 1 - d = s.sentBlocksCnt - (d + 1) := by omega
    rw [hA2, hc2]

@[simp] theorem host_N (c : Nat) (s : PState) : (uMCP_OnNewByte_host c s).N = s.N := by
  simp [uMCP_OnNewByte_host, apply_ite]

@[simp] theorem host_A (c : Nat) (s : PState) : (uMCP_OnNewByte_host c s).A = s.A := by
  simp [uMCP_OnNewByte_host, apply_ite]

@[simp] theorem host_sentBlocksCnt (c : Nat) (s : PState) :
    (uMCP_OnNewByte_host c s).sentBlocksCnt = s.sentBlocksCnt := by
  simp [uMCP_OnNewByte_host, apply_ite]

@[simp] theorem host_sentBlocksSize (c : Nat) (s : PState) :
    (uMCP_OnNewByte_host c s).sentBlocksSize = s.sentBlocksSize := by
  simp [uMCP_OnNewByte_host, apply_ite]

/-- States reachable from reset by host-byte arrivals, block sends
(`N++; uMCP_NextDataBlockSend`, requiring buffered data) and in-window
acknowledgements (`uMCP_AcknowledgeSentItems` for up to `sentBlocksCnt`
outstanding blocks); the index counts the sends. -/
inductive WinReach : Nat → PState → Prop where
  | init : WinReach 0 pInit
  | host {S : Nat} {s : PState} (c : Nat) :
      WinReach S s → WinReach S (uMCP_OnNewByte_host c s)
  | send {S : Nat} {s : PState} :
      WinReach S s → 0 < s.ih_Cnt → WinReach (S + 1) (opSend s)
  | ack {S : Nat} {s : PState} (d : Nat) :
      WinReach S s → d ≤ s.sentBlocksCnt → WinReach S (opAck ((s.A + d) % 256) s)

/-- Core window invariant along `WinReach`, below the wraparound bound. -/
theorem winreach_inv (S : Nat) (s : PState) (h : WinReach S s) : S ≤ 255 →
    s.N = S ∧ s.A ≤ s.N ∧ s.sentBlocksCnt = s.N - s.A ∧
    (∀ i, i < 256 → (s.sentBlocksSize i ≠ 0 ↔ (max s.A 1 ≤ i ∧ i ≤ s.N))) := by
  induction h with
  | init =>
    intro _
    refine ⟨rfl, Nat.le_refl _, rfl, ?_⟩
    intro i hi
    simp only [pInit, ne_eq, not_true_eq_false, false_iff]
    omega
  | host c h ih =>
    intro hS
    obtain ⟨h1, h2, h3, h4⟩ := ih hS
    exact ⟨by simp [h1], by simp [h2], by simp [h3], by simpa using h4⟩
  | send h hcnt ih =>
    rename_i S s
    intro hS
    obtain ⟨h1, h2, h3, h4⟩ := ih (by omega)
    obtain ⟨e1, e2, e3, e4⟩ := opSend_window s
    have hN1 : (s.N + 1) % 256 = S + 1 := by
      rw [h1]; exact Nat.mod_eq_of_lt (by omega)
    have hpc : (if s.ih_Cnt < CFG_DATABLOCK_SIZE then s.ih_Cnt else CFG_DATABLOCK_SIZE) % 256 ≠ 0 := by
      simp only [CFG_DATABLOCK_SIZE]
      split <;> omega
    refine ⟨by rw [e1, hN1], by rw [e2, e1, hN1]; omega, by rw [e3, e2, e1, hN1, h3]; omega, ?_⟩
    intro i hi
    rw [e4, e1, e2, hN1]
    by_cases hiN : i = S + 1
    · subst hiN
      simp only [upd, if_pos rfl]
      constructor
      · intro _; omega
      · intro _; exact hpc
    · simp only [upd, if_neg hiN]
      rw [h4 i hi, h1]
      omega
  | ack d h hd ih =>
    rename_i S s
    intro hS
    obtain ⟨h1, h2, h3, h4⟩ := ih hS
    have htoV : (s.A + d) % 256 = s.A + d := Nat.mod_eq_of_lt (by omega)
    rw [htoV]
    show _ ∧ _ ∧ _ ∧ _
    rw [show opAck (s.A + d) s = ackLoop (s.A + d) s.A 256 s from rfl]
    rw [ackLoop_spec d 256 s.A s rfl (by omega) (by omega) hd (by omega)]
    dsimp only
    refine ⟨h1, by omega, by omega, ?_⟩
    intro i hi
    have h4i := h4 i hi
    simp only [clearRange]
    by_cases hc : s.A ≤ i ∧ i < s.A + d
    · rw [if_pos hc]
      simp only [ne_eq, not_true_eq_false, false_iff]
      omega
    · rw [if_neg hc]
      rw [h4i]
      omega

end UMCP

namespace UMCP

/-- If the occupied slots form the interval `[a, b]` inside the index space,
the occupied count is the interval length. -/
theorem occupiedCount_interval (s : PState) (a b : Nat) (hb : b < 256)
    (hiff : ∀ i, i < 256 → (s.sentBlocksSize i ≠ 0 ↔ (a ≤ i ∧ i ≤ b))) :
    occupiedCount s = b + 1 - a := by
  unfold occupiedCount
  have hset : (Finset.range 256).filter (fun i => s.sentBlocksSize i ≠ 0) = Finset.Icc a b := by
    ext i
    simp only [Finset.mem_filter, Finset.mem_range, Finset.mem_Icc]
    constructor
    · rintro ⟨hi, hne⟩
      exact (hiff i hi).mp hne
    · intro hab
      exact ⟨by omega, (hiff i (by omega)).mpr hab⟩
  rw [hset, Nat.card_Icc]

/-- C6 (amended): starting from reset, along any interleaving of host-byte
arrivals, data-block sends and accepted in-window acknowledgements with at
most 255 sends, the sequence counter `N` equals the number of sends, `A`
trails `N`, `sentBlocksCnt = N - A`, and the slots with nonzero
`sentBlocksSize` are exactly the interval from `max A 1` to `N`: the stale
slot at the old `A` stays occupied after an acknowledgement, so the occupied
count is `sentBlocksCnt` before any block is acknowledged and
`sentBlocksCnt + 1` afterwards, not `sentBlocksCnt` over `[A, N)`. -/
theorem C6_window_invariant_amended (S : Nat) (s : PState) (h : WinReach S s)
    (hS : S ≤ 255) :
    s.N = S ∧ s.A ≤ s.N ∧ s.sentBlocksCnt = s.N - s.A ∧
    (∀ i, i < 256 → (s.sentBlocksSize i ≠ 0 ↔ (max s.A 1 ≤ i ∧ i ≤ s.N))) ∧
    occupiedCount s = (if 1 ≤ s.A then s.sentBlocksCnt + 1 else s.sentBlocksCnt) := by
  obtain ⟨h1, h2, h3, h4⟩ := winreach_inv S s h hS
  refine ⟨h1, h2, h3, h4, ?_⟩
  rw [occupiedCount_interval s (max s.A 1) s.N (by omega) h4, h3]
  split <;> omega

/-- Witness for C6: one host byte, one send, one acknowledgement of that
block; the slot count is `sentBlocksCnt + 1 = 1` with the stale slot at 1. -/
theorem C6_window_invariant_amended_witness :
    1 ≤ 255 ∧
    occupiedCount
        (opAck (((opSend (uMCP_OnNewByte_host 65 pInit)).A + 1) % 256)
          (opSend (uMCP_OnNewByte_host 65 pInit))) =
      (if 1 ≤ (opAck (((opSend (uMCP_OnNewByte_host 65 pInit)).A + 1) % 256)
            (opSend (uMCP_OnNewByte_host 65 pInit))).A
        then (opAck (((opSend (uMCP_OnNewByte_host 65 pInit)).A + 1) % 256)
            (opSend (uMCP_OnNewByte_host 65 pInit))).sentBlocksCnt + 1
        else (opAck (((opSend (uMCP_OnNewByte_host 65 pInit)).A + 1) % 256)
            (opSend (uMCP_OnNewByte_host 65 pInit))).sentBlocksCnt) :=
  ⟨by decide,
    (C6_window_invariant_amended 1 _
      (WinReach.ack 1 (WinReach.send (WinReach.host 65 WinReach.init) (by decide))
        (by decide))
      (by decide)).2.2.2.2⟩

end UMCP
